import Mathlib

/-!
# justthetalk-api: user account lifecycle and admin handlers

A verification development over `businesslogic/user.go` and
`handlers/AdminHandler.go`.

The Go code is a sequence of calls into things that live outside the two
files: the database (through GORM), the in-process caches, the clock, the
UUID library, the mailer and the other business-logic functions.  Each such
call is an operation `Op`; a Go function becomes a program `Prog` that
performs operations one after the other and continues with what each one
answered.  `Prog.run` executes a program against an environment `Env`, an
arbitrary state-passing interpretation of the operations, and records the
operations in the order they were performed.  Theorems quantify over every
environment, that is, over every behaviour of the database and the caches.

Conventions.
* Go strings are `String`; Go's `len(s)` is the number of bytes of the UTF-8
  encoding, `String.utf8ByteSize`.
* `time.Time` is an `Int`, the nanoseconds since the epoch; `t.Add(d)` is
  `t + d` and `t.Before(u)` is `t < u`.
* `sha256.Sum256` followed by `fmt.Sprintf("%x", ...)` is kept symbolic
  (`Arg.sha256Hex`).
* `log.Errorf` writes to the log only and is left out.
-/

set_option linter.constructorNameAsVariable false

namespace JustTheTalk

/-! ## Errors and panics -/

/-- Errors reported by GORM in `result.Error`. -/
inductive DbError where
  | ErrRecordNotFound
  | other (msg : String)
  deriving DecidableEq, Repr

/-- Go `error` values that the two files create or pass on. -/
inductive Err where
  | ErrBadRequest
  | ErrUnauthorised
  | ErrInternalError
  | ErrExpired
  | ErrNotFound
  | errorsNew (msg : String)
  | gorm (e : DbError)
  | errorf (format : String) (wrapped : Err)
  | external (msg : String)
  deriving DecidableEq, Repr

/-- Values a Go `panic` carries.  `PanicWithWrapper` is not part of the two
files; the value it panics with is kept as the pair of its arguments, in the
order of the call. -/
inductive PanicValue where
  | value (e : Err)
  | withWrapper (err : Err) (wrapper : Err)
  | nilDereference
  | external (msg : String)
  deriving DecidableEq, Repr

/-! ## Data model -/

/-- Modelled from the spec: the `model` package is not under src/; the fields
are the ones the code under src/ reads or writes. -/
structure IgnoredUser where
  IgnoredUserId : Nat
  Username : String
  deriving DecidableEq, Repr

/-- Modelled from the spec: the `model` package is not under src/; the fields
are the ones the code under src/ reads or writes (`Id` is `ModelBase.Id`). -/
structure User where
  Id : Nat
  Username : String
  Bio : String
  CreatedDate : Int
  Enabled : Bool
  AccountExpired : Bool
  IsAdmin : Bool
  IsWatch : Bool
  ViewType : String
  IgnoredUsers : List (Nat × IgnoredUser)
  deriving DecidableEq, Repr

/-- Modelled from the spec: `model.LoginCredentials`, with the fields read
under src/. -/
structure LoginCredentials where
  Username : String
  Password : String
  Email : String
  deriving DecidableEq, Repr

/-- Modelled from the spec: `model.UserOptionsUpdateData`, with the fields
read under src/. -/
structure UserOptionsUpdateData where
  OldPassword : String
  NewPassword : String
  ResetKey : String
  deriving DecidableEq, Repr

/-- Modelled from the spec: `model.PasswordResetRequest`, with the fields
read under src/. -/
structure PasswordResetRequest where
  Id : Nat
  UserId : Nat
  CreatedDate : Int
  deriving DecidableEq, Repr

/-- Modelled from the spec: `model.SignupConfirmation`, with the fields read
under src/. -/
structure SignupConfirmation where
  Id : Nat
  CreatedDate : Int
  deriving DecidableEq, Repr

/-- Row of `login_history`, as built by `CreateLoginHistory`. -/
structure LoginHistory where
  CreatedDate : Int
  UserId : Nat
  IPAddress : String
  Status : String
  deriving DecidableEq, Repr

/-- Modelled from the spec: the event-type constants of the `model` package
that the code under src/ passes to `CreateUserHistory`. -/
inductive UserHistoryEvent where
  | UserHistoryAdminSignup
  | UserHistoryAdminSignupConfirmed
  | UserHistoryUserPostReported
  | UserHistoryUserReportedPost
  deriving DecidableEq, Repr

/-- Row of `user_history`, as built by `CreateUserHistory`. -/
structure UserHistory where
  Version : Nat
  CreatedDate : Int
  EventType : UserHistoryEvent
  EventData : String
  UserId : Nat
  deriving DecidableEq, Repr

/-- Modelled from the spec: `model.UserFolderSubscription`, reduced to the
folder it names. -/
structure UserFolderSubscription where
  FolderId : Nat
  deriving DecidableEq, Repr

/-- Modelled from the spec: `model.Folder`, with the field read under src/. -/
structure Folder where
  Id : Nat
  deriving DecidableEq, Repr

/-- Modelled from the spec: `model.Discussion`, with the fields read under
src/. -/
structure Discussion where
  Id : Nat
  FolderId : Nat
  deriving DecidableEq, Repr

/-- Modelled from the spec: `model.Post`, with the fields read or written
under src/. -/
structure Post where
  Id : Nat
  DiscussionId : Nat
  Text : String
  Markup : String
  deriving DecidableEq, Repr

/-- Modelled from the spec: `model.ModeratorComment`, reduced to its body. -/
structure ModeratorComment where
  Body : String
  deriving DecidableEq, Repr

/-- The blocked users of one discussion, a Go `map[uint]...` keyed by user
id, as an association list without repeated keys. -/
abbrev BlockedUsers := List (Nat × User)

/-- A decoded JSON value of a `map[string]interface{}` entry. -/
inductive JsonValue where
  | null
  | bool (b : Bool)
  | number (n : Int)
  | string (s : String)
  deriving DecidableEq, Repr

/-- The `map[string]interface{}` that the `SetUserStatus` handler decodes
from the request body. -/
abbrev FieldMap := List (String × JsonValue)

/-- Result rows of business-logic functions whose row types are not under
src/: the ids of the rows. -/
abbrev Results := List Nat

/-- The `interface{}` a handler callback returns as response data. -/
inductive Payload where
  | null
  | results (rows : Results)
  | discussion (d : Option Discussion)
  | post (p : Option Post)
  | user (u : Option User)
  | blockedUsers (m : BlockedUsers)
  deriving DecidableEq, Repr

/-- What a handler callback returns: status code, data, message. -/
abbrev Response := Nat × Payload × String

/-- An HTTP request: the route variables, the query parameters in the order
they appear in the URL, and the body. -/
structure Request where
  vars : List (String × String)
  query : List (String × String)
  body : String
  deriving DecidableEq, Repr

/-! ## GORM -/

/-- The two database handles a function can hold: the connection `db` and the
transaction handle `tx` that `db.Transaction` passes to its closure. -/
inductive Conn where
  | connection
  | transaction
  deriving DecidableEq, Repr

/-- Values bound to the `?` placeholders of a statement. -/
inductive Arg where
  | uint (n : Nat)
  | int (i : Int)
  | str (s : String)
  | time (t : Int)
  | sha256Hex (s : String)
  deriving DecidableEq, Repr

/-- What `db.Raw(sql, vars...)` returns: a statement that has been built and
not run.  GORM runs it when a finisher (`Take`, `Scan`, `First`) is called. -/
structure Stmt where
  conn : Conn
  sql : String
  vars : List Arg
  deriving DecidableEq, Repr

/-- The `db.Raw(sql, vars...)` call: builds the statement, runs nothing. -/
def Conn.Raw (c : Conn) (sql : String) (vars : List Arg) : Stmt :=
  ⟨c, sql, vars⟩

/-- The `result.Error` of a statement that was only built: nil. -/
def Stmt.Error (_ : Stmt) : Option DbError := none

/-- The finishers used in `user.go`. -/
inductive Finisher where
  | Take
  | Scan
  | First
  deriving DecidableEq, Repr

/-- The Go type of the destination a finisher scans into. -/
inductive Dest where
  | user
  | passwordResetRequest
  | signupConfirmation
  | ignoredUsers
  | folderSubscriptions
  | int64
  deriving DecidableEq, Repr

/-- The value scanned into a destination. -/
def Dest.Ty : Dest → Type
  | .user => User
  | .passwordResetRequest => PasswordResetRequest
  | .signupConfirmation => SignupConfirmation
  | .ignoredUsers => List IgnoredUser
  | .folderSubscriptions => List UserFolderSubscription
  | .int64 => Int

/-- Rows inserted with `db.Table(...).Create(&row)`. -/
inductive Record where
  | loginHistory (h : LoginHistory)
  | userHistory (h : UserHistory)
  deriving DecidableEq, Repr

/-- What an e-mail template is filled with. -/
inductive MailData where
  | signupConfirmation (c : SignupConfirmation)
  | passwordResetRequest (r : PasswordResetRequest)
  deriving DecidableEq, Repr

/-- The e-mail templates named under src/. -/
inductive MailTemplate where
  | NewSignupTemplate
  | PasswordResetRequestTemplate
  deriving DecidableEq, Repr

/-! ## Operations -/

/-- Everything the two files call that is not defined in them.  Every
constructor is one call; its arguments are the arguments of the call.  A
pointer argument that may be nil is an `Option`. -/
inductive Op where
  /- clock and UUID library -/
  | timeNow
  | uuidParse (key : String)
  | uuidNewString
  /- GORM -/
  | query (st : Stmt) (f : Finisher) (d : Dest)
  | exec (c : Conn) (sql : String) (vars : List Arg)
  | tableCount (c : Conn) (table : String) (cond : String) (vars : List Arg)
  | tableUpdate (c : Conn) (table : String) (cond : String) (vars : List Arg)
      (column : String) (value : Arg)
  | tableCreate (c : Conn) (table : String) (row : Record)
  | txBegin (c : Conn)
  | txCommit
  | txRollback
  /- caches -/
  | userCacheGet (id : Nat)
  | userCacheReload (id : Nat)
  | userCacheFlushById (id : Nat)
  | userCachePut (u : User)
  | folderCacheEntries
  | folderCacheGet (id : Nat) (user : User)
  | discussionCacheGet (id : Nat) (user : User)
  | discussionCacheBlockedUsers (discussion : Option Discussion)
  | discussionCacheBlockOrUnblockUser (discussion : Option Discussion)
      (targetUser : Option User) (block : Bool) (adminUser : User)
  /- mail -/
  | SendEmailToUser (user : User) (data : MailData) (template : MailTemplate)
  /- request decoding (package utils, encoding/json) -/
  | ExtractQueryInt (name : String) (req : Request)
  | ExtractVarInt (name : String) (req : Request)
  | decodeModeratorComment (body : String)
  | decodeFieldMap (body : String)
  /- business logic outside user.go -/
  | GetModerationHistory (pageStart pageSize : Int)
  | GetModerationQueue
  | GetReportsByPost (postId : Nat)
  | GetCommentsByPost (postId : Nat)
  | GetReportsByDiscussion (discussion : Option Discussion)
  | GetCommentsByDiscussion (discussion : Option Discussion)
  | GetPost (postId : Nat)
  | CreateComment (comment : ModeratorComment) (folder : Option Folder)
      (discussion : Discussion) (post : Post) (user : User)
  | LockDiscussion (discussion : Option Discussion) (lockState : Int)
  | PremoderateDiscussion (discussion : Option Discussion) (premodState : Int)
  | AdminDeleteDiscussion (discussion : Option Discussion) (deleteState : Int)
  | MoveDiscussion (discussion : Option Discussion) (targetFolder : Option Folder)
  | EraseDiscussion (discussion : Option Discussion)
  | AdminDeleteNoUndeletePost (postId : Nat) (folder : Option Folder)
      (discussion : Discussion) (delete : Bool) (user : User)
  | ApplyPostFormatting (text : String) (discussion : Discussion)
  | PublishPost (post : Option Post)
  | SearchUsers (searchTerm : String)
  | FilterUsers (filterKey : String)
  | SetUserStatus (targetUser : User) (fieldMap : FieldMap) (adminUser : User)
  | GetUserHistory (targetUser : User)
  | GetUserDiscussionBlocks
  deriving DecidableEq, Repr

/-- What an operation hands back to the Go code.  A function that receives a
pointer and may write through it (`LockDiscussion` and its siblings) hands
back the pointee as it is after the call. -/
def Op.Ans : Op → Type
  | .timeNow => Int
  | .uuidParse _ => Bool
  | .uuidNewString => String
  | .query _ _ d => Except DbError d.Ty
  | .exec _ _ _ => Option DbError
  | .tableCount _ _ _ _ => Except DbError Int
  | .tableUpdate _ _ _ _ _ _ => Option DbError
  | .tableCreate _ _ _ => Option DbError
  | .txBegin _ => Option DbError
  | .txCommit => Option DbError
  | .txRollback => Unit
  | .userCacheGet _ => Option User
  | .userCacheReload _ => Option User
  | .userCacheFlushById _ => Unit
  | .userCachePut _ => Unit
  | .folderCacheEntries => List Folder
  | .folderCacheGet _ _ => Option Folder
  | .discussionCacheGet _ _ => Option Discussion
  | .discussionCacheBlockedUsers _ => BlockedUsers
  | .discussionCacheBlockOrUnblockUser _ _ _ _ => BlockedUsers
  | .SendEmailToUser _ _ _ => Unit
  | .ExtractQueryInt _ _ => Int
  | .ExtractVarInt _ _ => Nat
  | .decodeModeratorComment _ => Except Err ModeratorComment
  | .decodeFieldMap _ => Except Err FieldMap
  | .GetModerationHistory _ _ => Results
  | .GetModerationQueue => Results
  | .GetReportsByPost _ => Results
  | .GetCommentsByPost _ => Results
  | .GetReportsByDiscussion _ => Results
  | .GetCommentsByDiscussion _ => Results
  | .GetPost _ => Option Post × Option Err
  | .CreateComment _ _ _ _ _ => Results × Option Post
  | .LockDiscussion _ _ => Option Discussion
  | .PremoderateDiscussion _ _ => Option Discussion
  | .AdminDeleteDiscussion _ _ => Option Discussion
  | .MoveDiscussion _ _ => Option Discussion
  | .EraseDiscussion _ => Unit
  | .AdminDeleteNoUndeletePost _ _ _ _ _ => Option Post
  | .ApplyPostFormatting _ _ => String
  | .PublishPost _ => Unit
  | .SearchUsers _ => Results
  | .FilterUsers _ => Results
  | .SetUserStatus _ _ _ => Option User × Option Err
  | .GetUserHistory _ => Results
  | .GetUserDiscussionBlocks => Results

/-! ## Programs -/

/-- A Go function body: it returns, panics, or performs an operation and
continues with the answer.  The operation itself may panic, which the
continuation receives as `Except.error`. -/
inductive Prog (α : Type) : Type where
  | ret (a : α)
  | panic (p : PanicValue)
  | invoke (op : Op) (k : Except PanicValue op.Ans → Prog α)

/-- Perform an operation; a panic inside it unwinds the caller. -/
def Prog.call {α : Type} (op : Op) (k : op.Ans → Prog α) : Prog α :=
  .invoke op fun r =>
    match r with
    | .error p => .panic p
    | .ok a => k a

/-- Sequencing: run `p`, then `f` on what it returned. -/
def Prog.bind {α β : Type} : Prog α → (α → Prog β) → Prog β
  | .ret a, f => f a
  | .panic p, _ => .panic p
  | .invoke op k, f => .invoke op fun r => Prog.bind (k r) f

/-- A deferred function that runs when `p` panics, as `defer` with
`recover`-free unwinding does: `h` receives the panic value. -/
def Prog.onPanic {α : Type} : Prog α → (PanicValue → Prog α) → Prog α
  | .ret a, _ => .ret a
  | .panic p, h => h p
  | .invoke op k, h => .invoke op fun r => Prog.onPanic (k r) h

/-- An interpretation of the operations over a world state `σ`: the answer
(or the panic) of each operation in each state, and the state after it. -/
abbrev Env (σ : Type) := (op : Op) → σ → Except PanicValue op.Ans × σ

/-- One execution: how it ended, the operations performed in order, and the
final world state. -/
structure Run (σ α : Type) where
  outcome : Except PanicValue α
  trace : List Op
  state : σ

/-- Execute a program in an environment from a state. -/
def Prog.run {σ α : Type} (env : Env σ) : Prog α → σ → Run σ α
  | .ret a, s => ⟨.ok a, [], s⟩
  | .panic p, s => ⟨.error p, [], s⟩
  | .invoke op k, s =>
    let rest := Prog.run env (k (env op s).1) (env op s).2
    ⟨rest.outcome, op :: rest.trace, rest.state⟩

/-- The call `utils.PanicWithWrapper(err, wrapper)`.  The function is not
under src/; every call site relies on it not returning. -/
def PanicWithWrapper {α : Type} (err wrapper : Err) : Prog α :=
  .panic (.withWrapper err wrapper)

/-- The call `db.Transaction(fc)` of GORM: begin, run the closure on the
transaction handle, commit when it returns nil; roll back when it returns an
error, when it panics (the panic continues), or when the commit fails.
`captured` is the value of the variables of the enclosing function that the
closure assigns; the closure returns their new value with its error. -/
def Transaction {β : Type} (db : Conn) (captured : β) (fc : Conn → Prog (β × Option Err)) :
    Prog (β × Option Err) :=
  .call (.txBegin db) fun beginErr =>
  match beginErr with
  | some e => .ret (captured, some (.gorm e))
  | none =>
    Prog.bind (Prog.onPanic (fc .transaction) fun p => .call .txRollback fun _ => .panic p) fun r =>
    match r.2 with
    | some e => .call .txRollback fun _ => .ret (r.1, some e)
    | none =>
      .call .txCommit fun commitErr =>
      match commitErr with
      | some e => .call .txRollback fun _ => .ret (r.1, some (.gorm e))
      | none => .ret (r.1, none)

/-! ## Standard library -/

/-- The replacement `html.EscapeString` makes for one character. -/
def htmlEscapeChar (c : Char) : String :=
  if c = '&' then "&amp;"
  else if c = Char.ofNat 39 then "&#39;"
  else if c = '<' then "&lt;"
  else if c = '>' then "&gt;"
  else if c = Char.ofNat 34 then "&#34;"
  else String.singleton c

/-- Go's `html.EscapeString`: escapes `&`, the apostrophe, `<`, `>` and the
double quote, and copies every other character. -/
def htmlEscapeString (s : String) : String :=
  String.join (s.toList.map htmlEscapeChar)

/-- Go's `len(s)` for a string: the number of bytes. -/
def len (s : String) : Nat := s.utf8ByteSize

/-- Go's `time.Hour`, in nanoseconds. -/
def Hour : Int := 3600 * 1000000000

/-! ## businesslogic/user.go -/

/-- `CreateLoginHistory`: stamps `last_login_date` of the user and inserts a
`login_history` row; panics with `ErrInternalError` when the insert fails.
The result of the `Update` is not looked at. -/
def CreateLoginHistory (status : String) (user : User) (ipAddress : String) (db : Conn) :
    Prog Unit :=
  .call .timeNow fun created =>
  let history : LoginHistory :=
    { CreatedDate := created, UserId := user.Id, IPAddress := ipAddress, Status := status }
  .call .timeNow fun now =>
  .call (.tableUpdate db "user" "id = ?" [.uint user.Id] "last_login_date" (.time now)) fun _ =>
  .call (.tableCreate db "login_history" (.loginHistory history)) fun createErr =>
  match createErr with
  | some _ => .panic (.value .ErrInternalError)
  | none => .ret ()

/-- `CreateUserHistory`: inserts a `user_history` row; panics with the
database error when the insert fails. -/
def CreateUserHistory (eventType : UserHistoryEvent) (eventData : String) (targetUser : User)
    (db : Conn) : Prog Unit :=
  .call .timeNow fun now =>
  let history : UserHistory :=
    { Version := 1, CreatedDate := now, EventType := eventType, EventData := eventData,
      UserId := targetUser.Id }
  .call (.tableCreate db "user_history" (.userHistory history)) fun createErr =>
  match createErr with
  | some e => .panic (.value (.gorm e))
  | none => .ret ()

/-- `ValidateUserLogin`. -/
def ValidateUserLogin (credentials : LoginCredentials) (ipAddress : String) (db : Conn) :
    Prog User :=
  let username := htmlEscapeString credentials.Username
  let passwordHash := Arg.sha256Hex credentials.Password
  .call (.query (db.Raw "call find_user(?, ?)" [.str username, passwordHash]) .Take .user)
    fun result =>
  match result with
  | .error e =>
    if e = .ErrRecordNotFound then
      PanicWithWrapper (.errorsNew "Unknown username or incorrect password") .ErrUnauthorised
    else
      PanicWithWrapper (.gorm e) .ErrInternalError
  | .ok userLookup =>
    if userLookup.Id = 0 then .panic (.value .ErrUnauthorised)
    else
      .call (.userCacheGet userLookup.Id) fun cached =>
      match cached with
      | none => .panic .nilDereference
      | some user =>
        if user.AccountExpired || !user.Enabled then
          PanicWithWrapper (.errorsNew "This account has been deleted") .ErrUnauthorised
        else
          Prog.bind (CreateLoginHistory "login" user ipAddress db) fun _ =>
          .ret user

/-- `CreateNewSignupConfirmation`. -/
def CreateNewSignupConfirmation (user : User) (db : Conn) : Prog Unit :=
  .call .uuidNewString fun key =>
  .call (.query (db.Raw "call create_signup_confirmation(?, ?)" [.uint user.Id, .str key])
    .Take .signupConfirmation) fun result =>
  match result with
  | .error e => PanicWithWrapper (.gorm e) .ErrInternalError
  | .ok confirmation =>
    .call (.SendEmailToUser user (.signupConfirmation confirmation) .NewSignupTemplate) fun _ =>
    .ret ()

/-- `CreateUser`.  The call of `PanicWithWrapper` for an existing user passes
`utils.ErrBadRequest` first and the message second, as the source does. -/
def CreateUser (credentials : LoginCredentials) (ipAddress : String) (db : Conn) : Prog User :=
  let username := htmlEscapeString credentials.Username
  .call (.tableCount db "user" "username = ? or email = ?"
    [.str username, .str credentials.Email]) fun result =>
  match result with
  | .error e => PanicWithWrapper (.gorm e) .ErrInternalError
  | .ok countOfExisting =>
    if countOfExisting > 0 then
      PanicWithWrapper .ErrBadRequest
        (.errorsNew "This username is already taken or e-mail address has already been used")
    else
      let passwordHash := Arg.sha256Hex credentials.Password
      .call (.query (db.Raw "call create_user(?, ?, ?)"
        [.str credentials.Email, .str username, passwordHash]) .Take .user) fun result =>
      match result with
      | .error e => PanicWithWrapper (.gorm e) .ErrInternalError
      | .ok user =>
        Prog.bind (CreateUserHistory .UserHistoryAdminSignup ipAddress user db) fun _ =>
        Prog.bind (CreateLoginHistory "new" user ipAddress db) fun _ =>
        Prog.bind (CreateNewSignupConfirmation user db) fun _ =>
        .ret user

/-- `ValidatePasswordResetKey`: returns the request and the error. -/
def ValidatePasswordResetKey (key : String) (db : Conn) :
    Prog (Option PasswordResetRequest × Option Err) :=
  .call (.uuidParse key) fun parsed =>
  if !parsed then .panic (.value .ErrBadRequest)
  else
    .call (.query (db.Raw "call find_password_reset_request(?)" [.str key])
      .Take .passwordResetRequest) fun result =>
    match result with
    | .error e =>
      if e = .ErrRecordNotFound then .ret (none, some (.errorsNew "key not found"))
      else .ret (none, some .ErrInternalError)
    | .ok request =>
      .call .timeNow fun now =>
      if request.CreatedDate + Hour < now then .ret (none, some .ErrExpired)
      else .ret (some request, none)

/-- The end of the closure of `UpdatePassword`, after `userId` is known:
store the new hash, flush the cache entry, return nil. -/
def UpdatePassword.store (updateData : UserOptionsUpdateData) (userId : Nat) (tx : Conn) :
    Prog (Nat × Option Err) :=
  let passwordHash := Arg.sha256Hex updateData.NewPassword
  .call (.query (tx.Raw "call update_user_password(?, ?)" [.uint userId, passwordHash])
    .Scan .user) fun result =>
  match result with
  | .error e => .ret (userId, some (.errorf "updating password: %w" (.gorm e)))
  | .ok _ =>
    .call (.userCacheFlushById userId) fun _ =>
    .ret (userId, none)

/-- The closure `UpdatePassword` passes to `db.Transaction`; it returns the
value of the captured `userId` with its error.  In the reset-key branch the
statement `delete from password_reset where id = ?` is built with `tx.Raw`
and no finisher is called on it. -/
def UpdatePassword.closure (user : Option User) (updateData : UserOptionsUpdateData)
    (tx : Conn) : Prog (Nat × Option Err) :=
  match user with
  | some u =>
    let passwordHash := Arg.sha256Hex updateData.OldPassword
    .call (.query (tx.Raw "call find_user(?, ?)" [.str u.Username, passwordHash]) .Take .user)
      fun result =>
    match result with
    | .error e =>
      if e = .ErrRecordNotFound then .ret (0, some .ErrUnauthorised)
      else .ret (0, some (.errorf "fetching user: %w" (.gorm e)))
    | .ok found =>
      if found.Id = 0 then .ret (0, some .ErrUnauthorised)
      else UpdatePassword.store updateData found.Id tx
  | none =>
    if len updateData.ResetKey > 0 then
      Prog.bind (ValidatePasswordResetKey updateData.ResetKey tx) fun validated =>
      match validated.2 with
      | some err => .ret (0, some err)
      | none =>
        match validated.1 with
        | none => .panic .nilDereference
        | some resetRequest =>
          let result := tx.Raw "delete from password_reset where id = ?" [.uint resetRequest.Id]
          match result.Error with
          | some e => .ret (0, some (.errorf "clearing password request: %w" (.gorm e)))
          | none => UpdatePassword.store updateData resetRequest.UserId tx
    else .ret (0, some .ErrBadRequest)

/-- `UpdatePassword`; `user` is nil for a password reset. -/
def UpdatePassword (user : Option User) (updateData : UserOptionsUpdateData) (db : Conn) :
    Prog (Option User) :=
  if len updateData.NewPassword < 8 then
    PanicWithWrapper (.errorsNew "Passwords must be at least 8 characters long") .ErrBadRequest
  else
    Prog.bind (Transaction db (0 : Nat) (UpdatePassword.closure user updateData)) fun r =>
    match r.2 with
    | some err => .panic (.value err)
    | none => .call (.userCacheGet r.1) fun cached => .ret cached

/-- `ValidateSignupConfirmationKey`: returns the user and the error. -/
def ValidateSignupConfirmationKey (key : String) (ipAddress : String) (db : Conn) :
    Prog (Option User × Option Err) :=
  .call (.uuidParse key) fun parsed =>
  if !parsed then .ret (none, some .ErrBadRequest)
  else
    .call (.query (db.Raw "call find_signup_confirmation_request(?)" [.str key])
      .Take .signupConfirmation) fun result =>
    match result with
    | .error e =>
      if e = .ErrRecordNotFound then .ret (none, some .ErrBadRequest)
      else .ret (none, some (.gorm e))
    | .ok request =>
      .call .timeNow fun now =>
      if request.CreatedDate + 72 * Hour < now then .ret (none, some .ErrExpired)
      else
        .call (.query (db.Raw "call accept_signup_confirmation_request(?, ?)"
          [.uint request.Id, .str ipAddress]) .Take .user) fun result =>
        match result with
        | .error e =>
          if e = .ErrRecordNotFound then .ret (none, some .ErrBadRequest)
          else .ret (none, some (.gorm e))
        | .ok user =>
          .call (.userCacheReload user.Id) fun updatedUser =>
          Prog.bind (CreateUserHistory .UserHistoryAdminSignupConfirmed ipAddress user db)
            fun _ =>
          Prog.bind (CreateLoginHistory "new" user ipAddress db) fun _ =>
          .ret (updatedUser, none)

/-! ## handlers/AdminHandler.go -/

/-- `req.URL.Query().Get(name)`: the first value of the parameter, or the
empty string when the parameter is absent. -/
def Request.queryGet (req : Request) (name : String) : String :=
  match req.query.find? (fun kv => kv.1 == name) with
  | some kv => kv.2
  | none => ""

/-- Go's conversion `uint(i)` of an `int` on a 64-bit platform. -/
def uint (i : Int) : Nat := (i % 2 ^ 64).toNat

/-- `http.StatusOK`. -/
def StatusOK : Nat := 200

/-- `http.StatusBadRequest`. -/
def StatusBadRequest : Nat := 400

/-- The function every handler passes to `utils.AdminOnlyHandlerFunction`;
it receives the request, the authenticated user and the database handle.
The response writer is not used by any callback and is left out. -/
abbrev Callback := Request → User → Conn → Prog Response

/-- The type of `utils.AdminOnlyHandlerFunction`, which is not under src/:
it receives the request and the callback and produces whatever the HTTP
layer does with them (`ρ`). -/
abbrev AdminOnlyHandler (ρ : Type) := Request → Callback → ρ

/-- `AdminHandler.GetModerationHistory`. -/
def AdminHandler.GetModerationHistory {ρ : Type} (AdminOnlyHandlerFunction : AdminOnlyHandler ρ)
    (req : Request) : ρ :=
  AdminOnlyHandlerFunction req fun req _ _ =>
    .call (.ExtractQueryInt "start" req) fun pageStart =>
    .call (.ExtractQueryInt "size" req) fun pageSize =>
    .call (.GetModerationHistory pageStart pageSize) fun results =>
    .ret (StatusOK, .results results, "")

/-- `AdminHandler.GetModerationQueue`. -/
def AdminHandler.GetModerationQueue {ρ : Type} (AdminOnlyHandlerFunction : AdminOnlyHandler ρ)
    (req : Request) : ρ :=
  AdminOnlyHandlerFunction req fun _ _ _ =>
    .call .GetModerationQueue fun results =>
    .ret (StatusOK, .results results, "")

/-- `AdminHandler.GetReportsByPost`. -/
def AdminHandler.GetReportsByPost {ρ : Type} (AdminOnlyHandlerFunction : AdminOnlyHandler ρ)
    (req : Request) : ρ :=
  AdminOnlyHandlerFunction req fun req user _ =>
    .call (.ExtractVarInt "discussionId" req) fun discussionId =>
    .call (.discussionCacheGet discussionId user) fun _ =>
    .call (.ExtractVarInt "postId" req) fun postId =>
    .call (.GetReportsByPost postId) fun results =>
    .ret (StatusOK, .results results, "")

/-- `AdminHandler.GetCommentsByPost`. -/
def AdminHandler.GetCommentsByPost {ρ : Type} (AdminOnlyHandlerFunction : AdminOnlyHandler ρ)
    (req : Request) : ρ :=
  AdminOnlyHandlerFunction req fun req user _ =>
    .call (.ExtractVarInt "discussionId" req) fun discussionId =>
    .call (.discussionCacheGet discussionId user) fun _ =>
    .call (.ExtractVarInt "postId" req) fun postId =>
    .call (.GetCommentsByPost postId) fun results =>
    .ret (StatusOK, .results results, "")

/-- `AdminHandler.GetReportsByDiscussion`. -/
def AdminHandler.GetReportsByDiscussion {ρ : Type}
    (AdminOnlyHandlerFunction : AdminOnlyHandler ρ) (req : Request) : ρ :=
  AdminOnlyHandlerFunction req fun req user _ =>
    .call (.ExtractVarInt "discussionId" req) fun discussionId =>
    .call (.discussionCacheGet discussionId user) fun discussion =>
    .call (.GetReportsByDiscussion discussion) fun results =>
    .ret (StatusOK, .results results, "")

/-- `AdminHandler.GetCommentsByDiscussion`. -/
def AdminHandler.GetCommentsByDiscussion {ρ : Type}
    (AdminOnlyHandlerFunction : AdminOnlyHandler ρ) (req : Request) : ρ :=
  AdminOnlyHandlerFunction req fun req user _ =>
    .call (.ExtractVarInt "discussionId" req) fun discussionId =>
    .call (.discussionCacheGet discussionId user) fun discussion =>
    .call (.GetCommentsByDiscussion discussion) fun results =>
    .ret (StatusOK, .results results, "")

/-- `AdminHandler.CreateComment`. -/
def AdminHandler.CreateComment {ρ : Type} (AdminOnlyHandlerFunction : AdminOnlyHandler ρ)
    (req : Request) : ρ :=
  AdminOnlyHandlerFunction req fun req user _ =>
    .call (.ExtractVarInt "discussionId" req) fun discussionId =>
    .call (.ExtractVarInt "postId" req) fun postId =>
    .call (.decodeModeratorComment req.body) fun decoded =>
    match decoded with
    | .error err => PanicWithWrapper err .ErrBadRequest
    | .ok comment =>
      .call (.discussionCacheGet discussionId user) fun cachedDiscussion =>
      match cachedDiscussion with
      | none => .panic .nilDereference
      | some discussion =>
        .call (.folderCacheGet discussion.FolderId user) fun folder =>
        .call (.GetPost postId) fun fetched =>
        match fetched.2 with
        | some err => PanicWithWrapper err .ErrInternalError
        | none =>
          match fetched.1 with
          | none => .panic .nilDereference
          | some post =>
            if post.DiscussionId ≠ discussionId then .panic (.value .ErrBadRequest)
            else
              .call (.CreateComment comment folder discussion post user) fun created =>
              .call (.PublishPost created.2) fun _ =>
              .ret (StatusOK, .results created.1, "")

/-- `AdminHandler.LockDiscussion`. -/
def AdminHandler.LockDiscussion {ρ : Type} (AdminOnlyHandlerFunction : AdminOnlyHandler ρ)
    (req : Request) : ρ :=
  AdminOnlyHandlerFunction req fun req user _ =>
    .call (.ExtractVarInt "discussionId" req) fun discussionId =>
    .call (.ExtractQueryInt "state" req) fun lockState =>
    .call (.discussionCacheGet discussionId user) fun discussion =>
    .call (.LockDiscussion discussion lockState) fun discussion =>
    .ret (StatusOK, .discussion discussion, "")

/-- `AdminHandler.PremoderateDiscussion`. -/
def AdminHandler.PremoderateDiscussion {ρ : Type}
    (AdminOnlyHandlerFunction : AdminOnlyHandler ρ) (req : Request) : ρ :=
  AdminOnlyHandlerFunction req fun req user _ =>
    .call (.ExtractVarInt "discussionId" req) fun discussionId =>
    .call (.ExtractQueryInt "state" req) fun premodState =>
    .call (.discussionCacheGet discussionId user) fun discussion =>
    .call (.PremoderateDiscussion discussion premodState) fun discussion =>
    .ret (StatusOK, .discussion discussion, "")

/-- `AdminHandler.DeleteDiscussion`. -/
def AdminHandler.DeleteDiscussion {ρ : Type} (AdminOnlyHandlerFunction : AdminOnlyHandler ρ)
    (req : Request) : ρ :=
  AdminOnlyHandlerFunction req fun req user _ =>
    .call (.ExtractVarInt "discussionId" req) fun discussionId =>
    .call (.ExtractQueryInt "state" req) fun deleteState =>
    .call (.discussionCacheGet discussionId user) fun discussion =>
    .call (.AdminDeleteDiscussion discussion deleteState) fun discussion =>
    .ret (StatusOK, .discussion discussion, "")

/-- `AdminHandler.MoveDiscussion`. -/
def AdminHandler.MoveDiscussion {ρ : Type} (AdminOnlyHandlerFunction : AdminOnlyHandler ρ)
    (req : Request) : ρ :=
  AdminOnlyHandlerFunction req fun req user _ =>
    .call (.ExtractVarInt "discussionId" req) fun discussionId =>
    .call (.ExtractQueryInt "targetFolderId" req) fun targetFolderId =>
    .call (.discussionCacheGet discussionId user) fun discussion =>
    .call (.folderCacheGet (uint targetFolderId) user) fun targetFolder =>
    .call (.MoveDiscussion discussion targetFolder) fun discussion =>
    .ret (StatusOK, .discussion discussion, "")

/-- `AdminHandler.EraseDiscussion`. -/
def AdminHandler.EraseDiscussion {ρ : Type} (AdminOnlyHandlerFunction : AdminOnlyHandler ρ)
    (req : Request) : ρ :=
  AdminOnlyHandlerFunction req fun req user _ =>
    .call (.ExtractVarInt "discussionId" req) fun discussionId =>
    .call (.discussionCacheGet discussionId user) fun discussion =>
    .call (.EraseDiscussion discussion) fun _ =>
    .ret (StatusOK, .null, "Discussion erased")

/-- `AdminHandler.GetBlockedUsers`. -/
def AdminHandler.GetBlockedUsers {ρ : Type} (AdminOnlyHandlerFunction : AdminOnlyHandler ρ)
    (req : Request) : ρ :=
  AdminOnlyHandlerFunction req fun req user _ =>
    .call (.ExtractVarInt "discussionId" req) fun discussionId =>
    .call (.discussionCacheGet discussionId user) fun discussion =>
    .call (.discussionCacheBlockedUsers discussion) fun blockedUsers =>
    .ret (StatusOK, .blockedUsers blockedUsers, "")

/-- `AdminHandler.BlockUserDiscussion`. -/
def AdminHandler.BlockUserDiscussion {ρ : Type} (AdminOnlyHandlerFunction : AdminOnlyHandler ρ)
    (req : Request) : ρ :=
  AdminOnlyHandlerFunction req fun req user _ =>
    .call (.ExtractVarInt "discussionId" req) fun discussionId =>
    .call (.ExtractVarInt "userId" req) fun targetUserId =>
    .call (.discussionCacheGet discussionId user) fun discussion =>
    .call (.userCacheGet targetUserId) fun targetUser =>
    .call (.discussionCacheBlockOrUnblockUser discussion targetUser true user) fun blockedUsers =>
    .ret (StatusOK, .blockedUsers blockedUsers, "")

/-- `AdminHandler.UnblockUserDiscussion`. -/
def AdminHandler.UnblockUserDiscussion {ρ : Type}
    (AdminOnlyHandlerFunction : AdminOnlyHandler ρ) (req : Request) : ρ :=
  AdminOnlyHandlerFunction req fun req user _ =>
    .call (.ExtractVarInt "discussionId" req) fun discussionId =>
    .call (.ExtractVarInt "userId" req) fun targetUserId =>
    .call (.discussionCacheGet discussionId user) fun discussion =>
    .call (.userCacheGet targetUserId) fun targetUser =>
    .call (.discussionCacheBlockOrUnblockUser discussion targetUser false user) fun blockedUsers =>
    .ret (StatusOK, .blockedUsers blockedUsers, "")

/-- `AdminHandler.DeletePost`. -/
def AdminHandler.DeletePost {ρ : Type} (AdminOnlyHandlerFunction : AdminOnlyHandler ρ)
    (req : Request) : ρ :=
  AdminOnlyHandlerFunction req fun req user _ =>
    .call (.ExtractVarInt "discussionId" req) fun discussionId =>
    .call (.ExtractVarInt "postId" req) fun postId =>
    .call (.discussionCacheGet discussionId user) fun cachedDiscussion =>
    match cachedDiscussion with
    | none => .panic .nilDereference
    | some discussion =>
      .call (.folderCacheGet discussion.FolderId user) fun folder =>
      .call (.AdminDeleteNoUndeletePost postId folder discussion true user) fun changed =>
      match changed with
      | none => .panic .nilDereference
      | some post =>
        .call (.ApplyPostFormatting post.Text discussion) fun markup =>
        let post := { post with Markup := markup }
        .call (.PublishPost (some post)) fun _ =>
        .ret (StatusOK, .post (some post), "")

/-- `AdminHandler.UndeletePost`. -/
def AdminHandler.UndeletePost {ρ : Type} (AdminOnlyHandlerFunction : AdminOnlyHandler ρ)
    (req : Request) : ρ :=
  AdminOnlyHandlerFunction req fun req user _ =>
    .call (.ExtractVarInt "discussionId" req) fun discussionId =>
    .call (.ExtractVarInt "postId" req) fun postId =>
    .call (.discussionCacheGet discussionId user) fun cachedDiscussion =>
    match cachedDiscussion with
    | none => .panic .nilDereference
    | some discussion =>
      .call (.folderCacheGet discussion.FolderId user) fun folder =>
      .call (.AdminDeleteNoUndeletePost postId folder discussion false user) fun changed =>
      match changed with
      | none => .panic .nilDereference
      | some post =>
        .call (.ApplyPostFormatting post.Text discussion) fun markup =>
        let post := { post with Markup := markup }
        .call (.PublishPost (some post)) fun _ =>
        .ret (StatusOK, .post (some post), "")

/-- `AdminHandler.SearchUsers`. -/
def AdminHandler.SearchUsers {ρ : Type} (AdminOnlyHandlerFunction : AdminOnlyHandler ρ)
    (req : Request) : ρ :=
  AdminOnlyHandlerFunction req fun req _ _ =>
    let searchTerm := req.queryGet "term"
    if len searchTerm > 0 ∧ len searchTerm ≤ 20 then
      .call (.SearchUsers searchTerm) fun results =>
      .ret (StatusOK, .results results, "")
    else
      let filterKey := req.queryGet "filter"
      if len filterKey > 0 then
        .call (.FilterUsers filterKey) fun results =>
        .ret (StatusOK, .results results, "")
      else
        .ret (StatusBadRequest, .null, "You must supply a search term")

/-- `AdminHandler.SetUserStatus`. -/
def AdminHandler.SetUserStatus {ρ : Type} (AdminOnlyHandlerFunction : AdminOnlyHandler ρ)
    (req : Request) : ρ :=
  AdminOnlyHandlerFunction req fun req user _ =>
    .call (.ExtractVarInt "userId" req) fun userId =>
    .call (.decodeFieldMap req.body) fun decoded =>
    match decoded with
    | .error err => PanicWithWrapper err .ErrBadRequest
    | .ok fieldMap =>
      .call (.userCacheGet userId) fun cached =>
      match cached with
      | none => .panic (.value .ErrNotFound)
      | some targetUser =>
        .call (.SetUserStatus targetUser fieldMap user) fun r =>
        match r.2 with
        | some err => .panic (.value err)
        | none => .ret (StatusOK, .user r.1, "")

/-- `AdminHandler.GetUserHistory`. -/
def AdminHandler.GetUserHistory {ρ : Type} (AdminOnlyHandlerFunction : AdminOnlyHandler ρ)
    (req : Request) : ρ :=
  AdminOnlyHandlerFunction req fun req _ _ =>
    .call (.ExtractVarInt "userId" req) fun userId =>
    .call (.userCacheGet userId) fun cached =>
    match cached with
    | none => .panic (.value .ErrNotFound)
    | some targetUser =>
      .call (.GetUserHistory targetUser) fun results =>
      .ret (StatusOK, .results results, "")

/-- `AdminHandler.GetUserDiscussionBlocks`. -/
def AdminHandler.GetUserDiscussionBlocks {ρ : Type}
    (AdminOnlyHandlerFunction : AdminOnlyHandler ρ) (req : Request) : ρ :=
  AdminOnlyHandlerFunction req fun _ _ _ =>
    .call .GetUserDiscussionBlocks fun results =>
    .ret (StatusOK, .results results, "")

/-! ## Code of the repository that is not under src/ -/

/-- Whether a blocked-user map has an entry for the user id. -/
def BlockedUsers.containsId (m : BlockedUsers) (id : Nat) : Bool :=
  m.any fun entry => entry.1 == id

/-- Modelled from the spec: `DiscussionCache.BlockOrUnblockUser` is not under
src/ (its tests and the handlers that call it are).  It returns the
blocked-user map of the discussion after the call: the entry of the target
user is there exactly when `block` is true, and the entries of the other
users stay.  `blocked` is the map of the discussion before the call. -/
def DiscussionCache.BlockOrUnblockUser (blocked : BlockedUsers) (_discussion : Discussion)
    (targetUser : User) (block : Bool) (_adminUser : User) : BlockedUsers :=
  let others := blocked.filter fun entry => entry.1 != targetUser.Id
  if block then (targetUser.Id, targetUser) :: others else others

/-- The effect of one entry of the field map on a user: `isWatch` with a
boolean sets `IsWatch`. -/
def SetUserStatus.applyField (u : User) (entry : String × JsonValue) : User :=
  if entry.1 = "isWatch" then
    match entry.2 with
    | .bool b => { u with IsWatch := b }
    | _ => u
  else u

/-- Modelled from the spec: `businesslogic.SetUserStatus` is not under src/
(its test and the handler that calls it are).  It returns the target user
with the fields of the map applied, and no error.  The test fixes the
`isWatch` entry; entries the test does not mention are left without effect
here. -/
def SetUserStatus (targetUser : User) (fieldMap : FieldMap) (_adminUser : User) :
    Option User × Option Err :=
  (some (fieldMap.foldl SetUserStatus.applyField targetUser), none)

/-- Modelled from the spec: `utils.AdminOnlyHandlerFunction` is not under
src/; the spec calls it the admin-only auth middleware in front of the
handler function.  `session` is the user the request authenticates as, if
any: the callback is invoked for an administrator, and the request is
refused with status 401 otherwise. -/
def AdminOnlyHandlerFunction (session : Option User) : AdminOnlyHandler (Prog Response) :=
  fun req callback =>
    match session with
    | some user =>
      if user.IsAdmin then callback req user .connection
      else .ret (401, .null, "unauthorised")
    | none => .ret (401, .null, "unauthorised")

/-! ## A scripted environment

An environment that answers from a fixed script whatever the state; its state
counts the operations performed.  It instantiates the theorems at concrete
inputs. -/

/-- The answers of the scripted environment. -/
structure Script where
  now : Int
  uuidParses : Bool
  countOfExisting : Except DbError Int
  userRow : Except DbError User
  resetRequest : Except DbError PasswordResetRequest
  confirmation : Except DbError SignupConfirmation
  cachedUser : Option User
  blocked : BlockedUsers
  post : Option Post

/-- The answer of the script to a finisher, by destination. -/
def Script.scan (sc : Script) : (d : Dest) → Except DbError d.Ty
  | .user => sc.userRow
  | .passwordResetRequest => sc.resetRequest
  | .signupConfirmation => sc.confirmation
  | .ignoredUsers => .ok []
  | .folderSubscriptions => .ok []
  | .int64 => .ok (0 : Int)

/-- The route variable `name` of the request read as a decimal number, 0
when it is absent. -/
def Request.varNat (req : Request) (name : String) : Nat :=
  match req.vars.find? (fun kv => kv.1 == name) with
  | some kv => kv.2.toList.foldl (fun n c => 10 * n + (c.toNat - 48)) 0
  | none => 0

/-- The answer of the script to an operation. -/
def Script.answer (sc : Script) : (op : Op) → op.Ans
  | .timeNow => sc.now
  | .uuidParse _ => sc.uuidParses
  | .uuidNewString => "6ba7b810-9dad-11d1-80b4-00c04fd430c8"
  | .query _ _ d => sc.scan d
  | .exec _ _ _ => none
  | .tableCount _ _ _ _ => sc.countOfExisting
  | .tableUpdate _ _ _ _ _ _ => none
  | .tableCreate _ _ _ => none
  | .txBegin _ => none
  | .txCommit => none
  | .txRollback => ()
  | .userCacheGet _ => sc.cachedUser
  | .userCacheReload _ => sc.cachedUser
  | .userCacheFlushById _ => ()
  | .userCachePut _ => ()
  | .folderCacheEntries => [⟨1⟩, ⟨2⟩]
  | .folderCacheGet id _ => some ⟨id⟩
  | .discussionCacheGet id _ => some ⟨id, 1⟩
  | .discussionCacheBlockedUsers _ => sc.blocked
  | .discussionCacheBlockOrUnblockUser discussion targetUser block adminUser =>
    match discussion, targetUser with
    | some d, some t => DiscussionCache.BlockOrUnblockUser sc.blocked d t block adminUser
    | _, _ => sc.blocked
  | .SendEmailToUser _ _ _ => ()
  | .ExtractQueryInt _ _ => (0 : Int)
  | .ExtractVarInt name req => req.varNat name
  | .decodeModeratorComment body => .ok ⟨body⟩
  | .decodeFieldMap _ => .ok [("isWatch", .bool true)]
  | .GetModerationHistory _ _ => []
  | .GetModerationQueue => []
  | .GetReportsByPost _ => []
  | .GetCommentsByPost _ => []
  | .GetReportsByDiscussion _ => []
  | .GetCommentsByDiscussion _ => []
  | .GetPost _ => (sc.post, none)
  | .CreateComment _ _ _ post _ => ([], some post)
  | .LockDiscussion discussion _ => discussion
  | .PremoderateDiscussion discussion _ => discussion
  | .AdminDeleteDiscussion discussion _ => discussion
  | .MoveDiscussion discussion _ => discussion
  | .EraseDiscussion _ => ()
  | .AdminDeleteNoUndeletePost _ _ _ _ _ => sc.post
  | .ApplyPostFormatting text _ => text
  | .PublishPost _ => ()
  | .SearchUsers _ => []
  | .FilterUsers _ => []
  | .SetUserStatus targetUser fieldMap adminUser => SetUserStatus targetUser fieldMap adminUser
  | .GetUserHistory _ => []
  | .GetUserDiscussionBlocks => []

/-- The scripted environment: no operation panics, every answer comes from
the script, and the state counts the operations. -/
def Script.env (sc : Script) : Env Nat :=
  fun op n => (.ok (sc.answer op), n + 1)

/-- A user account in good standing. -/
def sampleUser : User :=
  { Id := 5540, Username := "johnny", Bio := "", CreatedDate := 0, Enabled := true,
    AccountExpired := false, IsAdmin := false, IsWatch := false, ViewType := "",
    IgnoredUsers := [] }

/-- An administrator. -/
def sampleAdmin : User :=
  { Id := 50, Username := "admin", Bio := "", CreatedDate := 0, Enabled := true,
    AccountExpired := false, IsAdmin := true, IsWatch := false, ViewType := "",
    IgnoredUsers := [] }

/-- A script in which every lookup finds its row and nothing has expired. -/
def sampleScript : Script :=
  { now := 1000, uuidParses := true, countOfExisting := .ok 0, userRow := .ok sampleUser,
    resetRequest := .ok ⟨7, 5540, 1000⟩, confirmation := .ok ⟨9, 1000⟩,
    cachedUser := some sampleUser, blocked := [], post := some ⟨3, 25876, "text", ""⟩ }

/-- A request for discussion 25876 and user 5540. -/
def sampleRequest : Request :=
  { vars := [("discussionId", "25876"), ("userId", "5540"), ("postId", "3")],
    query := [("term", "johnny")], body := "" }

/-- Whether the operation runs the stored procedure `create_user`. -/
def Op.isCreateUserCall : Op → Bool
  | .query st _ _ => st.sql == "call create_user(?, ?, ?)"
  | .exec _ sql _ => sql == "call create_user(?, ?, ?)"
  | _ => false

/-- Every database call succeeds in the environment: none panics and none
reports an error in `result.Error`. -/
def Env.dbCallsSucceed {σ : Type} (env : Env σ) : Prop :=
  (∀ st f d s, ∃ v, (env (.query st f d) s).1 = .ok (.ok v)) ∧
  (∀ c sql vars s, (env (.exec c sql vars) s).1 = .ok none) ∧
  (∀ c table cond vars s, ∃ n, (env (.tableCount c table cond vars) s).1 = .ok (.ok n)) ∧
  (∀ c table cond vars column value s,
    (env (.tableUpdate c table cond vars column value) s).1 = .ok none) ∧
  (∀ c table row s, (env (.tableCreate c table row) s).1 = .ok none) ∧
  (∀ c s, (env (.txBegin c) s).1 = .ok none) ∧
  (∀ s, (env .txCommit s).1 = .ok none)

/-- Whether the operation runs the statement that clears a password reset
request, through a finisher or through `Exec`. -/
def Op.isDeletePasswordReset : Op → Bool
  | .query st _ _ => st.sql == "delete from password_reset where id = ?"
  | .exec _ sql _ => sql == "delete from password_reset where id = ?"
  | _ => false

/-- No execution of the program performs an operation satisfying `P`,
whatever the operations answer. -/
def Prog.Never {α : Type} (P : Op → Bool) : Prog α → Prop
  | .ret _ => True
  | .panic _ => True
  | .invoke op k => P op = false ∧ ∀ r, Prog.Never P (k r)

/-- The scripted environment for a request whose body is not JSON: decoding
the moderator comment fails, everything else answers from the script. -/
def Script.envBadBody (sc : Script) : Env Nat :=
  fun op n =>
    match op with
    | .decodeModeratorComment _ =>
      (.ok (.error (.external "unexpected end of JSON input")), n + 1)
    | op => sc.env op n

/-- A request that names post 3 under discussion 1; the post belongs to
discussion 25876. -/
def mismatchedRequest : Request :=
  { vars := [("discussionId", "1"), ("postId", "3")], query := [], body := "comment" }

/-! ## Go maps, subscriptions and the ignore list -/

/-- A Go map with `uint` keys, as the list of its entries; a key occurs at
most once in a map built from the empty map with `GoMap.set`. -/
abbrev GoMap (α : Type) := List (Nat × α)

/-- The assignment `m[k] = v`. -/
def GoMap.set {α : Type} : GoMap α → Nat → α → GoMap α
  | [], k, v => [(k, v)]
  | (k', v') :: m, k, v => if k' = k then (k, v) :: m else (k', v') :: GoMap.set m k v

/-- The lookup `m[k]`, `none` when the key is absent. -/
def GoMap.get {α : Type} : GoMap α → Nat → Option α
  | [], _ => none
  | (k', v') :: m, k => if k' = k then some v' else GoMap.get m k

/-- `GetFolderSubscriptions`. -/
def GetFolderSubscriptions (user : User) (db : Conn) : Prog (List UserFolderSubscription) :=
  .call (.query (db.Raw "call get_folder_subscriptions(?)" [.uint user.Id])
    .Scan .folderSubscriptions) fun result =>
  match result with
  | .error e => PanicWithWrapper (.gorm e) .ErrInternalError
  | .ok subscriptions => .ret subscriptions

/-- The map `subscriptions` of `UpdateFolderSubscriptions` after its two
loops: every cached folder is entered with `false`, then every id of
`subsList` with `true`. -/
def UpdateFolderSubscriptions.subscriptions (entries : List Folder) (subsList : List Nat) :
    GoMap Bool :=
  subsList.foldl (fun m folderId => GoMap.set m folderId true)
    (entries.foldl (fun m folder => GoMap.set m folder.Id false) [])

/-- The loop inside the closure of `UpdateFolderSubscriptions`, over the
entries of the map in the order the `range` visits them: one
`update_user_folder_subscription` per entry, issued with `db.Exec` on the
handle `db` of the enclosing function; the first error ends the loop and is
returned. -/
def UpdateFolderSubscriptions.loop (user : User) (db : Conn) :
    List (Nat × Bool) → Prog (Option Err)
  | [] => .ret none
  | (folderId, subscribed) :: rest =>
    let subscriptionState : Int := if subscribed then 1 else 0
    .call (.exec db "call update_user_folder_subscription(?, ?, ?)"
      [.uint user.Id, .uint folderId, .int subscriptionState]) fun resultError =>
    match resultError with
    | some e => .ret (some (.gorm e))
    | none => UpdateFolderSubscriptions.loop user db rest

/-- `UpdateFolderSubscriptions`.  Go visits the entries of a map in an
unspecified order; `range` is that order, a rearrangement of the entries.
The closure receives the transaction handle and does not use it. -/
def UpdateFolderSubscriptions (range : GoMap Bool → List (Nat × Bool)) (subsList : List Nat)
    (user : User) (db : Conn) : Prog (List UserFolderSubscription) :=
  .call .folderCacheEntries fun entries =>
  let subscriptions := UpdateFolderSubscriptions.subscriptions entries subsList
  Prog.bind (Transaction db () fun _ =>
    Prog.bind (UpdateFolderSubscriptions.loop user db (range subscriptions)) fun err =>
    .ret ((), err)) fun r =>
  match r.2 with
  | some err => PanicWithWrapper err .ErrInternalError
  | none => GetFolderSubscriptions user db

/-- The loop inside the closure of `DeleteFolderSubscriptions`: one
`delete_folder_subscription` per id, issued with `tx.Exec` on the
transaction handle. -/
def DeleteFolderSubscriptions.loop (user : User) (tx : Conn) : List Nat → Prog (Option Err)
  | [] => .ret none
  | subsId :: rest =>
    .call (.exec tx "call delete_folder_subscription(?, ?)" [.uint user.Id, .uint subsId])
      fun resultError =>
    match resultError with
    | some e => .ret (some (.gorm e))
    | none => DeleteFolderSubscriptions.loop user tx rest

/-- `DeleteFolderSubscriptions`. -/
def DeleteFolderSubscriptions (subsList : List Nat) (user : User) (db : Conn) :
    Prog (List UserFolderSubscription) :=
  Prog.bind (Transaction db () fun tx =>
    Prog.bind (DeleteFolderSubscriptions.loop user tx subsList) fun err =>
    .ret ((), err)) fun r =>
  match r.2 with
  | some err => PanicWithWrapper err .ErrInternalError
  | none => GetFolderSubscriptions user db

/-- The map `UpdateIgnore` builds from the rows of `update_user_ignore`:
starting from the empty map, each row is stored under its `IgnoredUserId`. -/
def UpdateIgnore.ignoredUsers (ignored : List IgnoredUser) : GoMap IgnoredUser :=
  ignored.foldl (fun m item => GoMap.set m item.IgnoredUserId item) []

/-- `UpdateIgnore`.  The Go function writes through the pointer `user`; the
program returns the user as it is after the call. -/
def UpdateIgnore (user : User) (ignoreUserId : Nat) (ignoreState : Int) (db : Conn) :
    Prog User :=
  .call (.query (db.Raw "call update_user_ignore(?, ?, ?)"
    [.uint user.Id, .uint ignoreUserId, .int ignoreState]) .Scan .ignoredUsers) fun result =>
  match result with
  | .error e => PanicWithWrapper (.gorm e) .ErrInternalError
  | .ok ignored =>
    let user := { user with IgnoredUsers := UpdateIgnore.ignoredUsers ignored }
    .call (.userCachePut user) fun _ =>
    .ret user

/-- The folder id and the state of an `update_user_folder_subscription` call
of the given user, `none` for any other operation. -/
def Op.asFolderSubscriptionUpdate (userId : Nat) : Op → Option (Nat × Int)
  | .exec _ sql [.uint u, .uint folderId, .int state] =>
    if sql = "call update_user_folder_subscription(?, ?, ?)" ∧ u = userId then
      some (folderId, state)
    else none
  | _ => none

/-- Whether the operation runs on the transaction handle. -/
def Op.onTransaction : Op → Bool
  | .query st _ _ => st.conn == .transaction
  | .exec c _ _ => c == .transaction
  | .tableCount c _ _ _ => c == .transaction
  | .tableUpdate c _ _ _ _ _ => c == .transaction
  | .tableCreate c _ _ => c == .transaction
  | _ => false

/-- Whether the operation runs the stored procedure `update_user_password`. -/
def Op.isUpdateUserPassword : Op → Bool
  | .query st _ _ => st.sql == "call update_user_password(?, ?)"
  | .exec _ sql _ => sql == "call update_user_password(?, ?)"
  | _ => false

/-- Whether the operation flushes an entry of the user cache. -/
def Op.isUserCacheFlush : Op → Bool
  | .userCacheFlushById _ => true
  | _ => false

/-- Whether the operation stores a password or flushes the user cache. -/
def Op.changesPassword (op : Op) : Bool :=
  op.isUpdateUserPassword || op.isUserCacheFlush

/-! ## A database with transactions

An environment whose state is the database: the statements whose effect is
in place, and the statements run on the open transaction, which a commit
puts in place and a rollback discards.  A statement run on the connection
itself takes effect at once.  The stored procedures refuse the folder
`failing`. -/

/-- The state of the database. -/
structure TxWorld where
  applied : List (String × List Arg)
  pending : List (String × List Arg)
  failing : Nat
  deriving DecidableEq, Repr

/-- The database with transactions as an environment; operations other than
`Exec`, commit and rollback answer from the sample script. -/
def TxWorld.env : Env TxWorld :=
  fun op w =>
    match op with
    | .exec c sql vars =>
      if vars[1]? = some (.uint w.failing) then (.ok (some (.other "unknown folder")), w)
      else
        match c with
        | .connection => (.ok none, { w with applied := w.applied ++ [(sql, vars)] })
        | .transaction => (.ok none, { w with pending := w.pending ++ [(sql, vars)] })
    | .txCommit => (.ok none, { w with applied := w.applied ++ w.pending, pending := [] })
    | .txRollback => (.ok (), { w with pending := [] })
    | op => (.ok (sampleScript.answer op), w)

/-- The scripted environment with a given result for `update_user_ignore`
(every finisher that scans into a list of ignored users). -/
def Script.envIgnoring (sc : Script) (rows : Except DbError (List IgnoredUser)) : Env Nat :=
  fun op n =>
    match op with
    | .query _ _ .ignoredUsers => (.ok rows, n + 1)
    | op => sc.env op n

/-- A user who ignores user 99. -/
def ignoringUser : User :=
  { sampleUser with IgnoredUsers := [(99, ⟨99, "old"⟩)] }

/-! ## Execution lemmas -/

@[simp] theorem Prog.run_ret {σ α : Type} (env : Env σ) (a : α) (s : σ) :
    Prog.run env (Prog.ret a) s = ⟨.ok a, [], s⟩ := rfl

@[simp] theorem Prog.run_panic {σ α : Type} (env : Env σ) (p : PanicValue) (s : σ) :
    Prog.run env (Prog.panic p : Prog α) s = ⟨.error p, [], s⟩ := rfl

@[simp] theorem PanicWithWrapper_run {σ α : Type} (env : Env σ) (e w : Err) (s : σ) :
    Prog.run env (PanicWithWrapper e w : Prog α) s = ⟨.error (.withWrapper e w), [], s⟩ := rfl

theorem Prog.run_invoke {σ α : Type} (env : Env σ) (op : Op)
    (k : Except PanicValue op.Ans → Prog α) (s : σ) :
    Prog.run env (Prog.invoke op k) s =
      ⟨(Prog.run env (k (env op s).1) (env op s).2).outcome,
       op :: (Prog.run env (k (env op s).1) (env op s).2).trace,
       (Prog.run env (k (env op s).1) (env op s).2).state⟩ := rfl

/-- Running a call whose operation answers `a`. -/
theorem Prog.run_call_ok {σ α : Type} (env : Env σ) (op : Op) (k : op.Ans → Prog α) (s s1 : σ)
    (a : op.Ans) (h : env op s = (.ok a, s1)) :
    Prog.run env (Prog.call op k) s =
      ⟨(Prog.run env (k a) s1).outcome, op :: (Prog.run env (k a) s1).trace,
       (Prog.run env (k a) s1).state⟩ := by
  simp [Prog.call, Prog.run_invoke, h]

/-- Running a call whose operation panics. -/
theorem Prog.run_call_error {σ α : Type} (env : Env σ) (op : Op) (k : op.Ans → Prog α)
    (s s1 : σ) (p : PanicValue) (h : env op s = (.error p, s1)) :
    Prog.run env (Prog.call op k) s = ⟨.error p, [op], s1⟩ := by
  simp [Prog.call, Prog.run_invoke, h]

/-- Running a sequence: the first part, then the second from where the first
stopped; a panic of the first part ends the run. -/
theorem Prog.run_bind {σ α β : Type} (env : Env σ) (p : Prog α) (f : α → Prog β) (s : σ) :
    Prog.run env (Prog.bind p f) s =
      match (Prog.run env p s).outcome with
      | .ok a =>
        ⟨(Prog.run env (f a) (Prog.run env p s).state).outcome,
         (Prog.run env p s).trace ++ (Prog.run env (f a) (Prog.run env p s).state).trace,
         (Prog.run env (f a) (Prog.run env p s).state).state⟩
      | .error e => ⟨.error e, (Prog.run env p s).trace, (Prog.run env p s).state⟩ := by
  induction p generalizing s with
  | ret a => simp [Prog.bind]
  | panic e => simp [Prog.bind]
  | invoke op k ih =>
    simp only [Prog.bind, Prog.run_invoke]
    rw [ih]
    cases (Prog.run env (k (env op s).1) (env op s).2).outcome <;> simp

/-- A program that never performs a `P` operation has no `P` operation in
the trace of any run. -/
theorem Prog.Never.run_trace {σ α : Type} {P : Op → Bool} {p : Prog α} (h : Prog.Never P p)
    (env : Env σ) (s : σ) : (Prog.run env p s).trace.any P = false := by
  induction p generalizing s with
  | ret a => simp
  | panic e => simp
  | invoke op k ih =>
    simp only [Prog.run_invoke, List.any_cons, Bool.or_eq_false_iff]
    exact ⟨h.1, ih _ (h.2 _) _⟩

theorem Prog.Never.call {α : Type} {P : Op → Bool} {op : Op} {k : op.Ans → Prog α}
    (hop : P op = false) (hk : ∀ a, Prog.Never P (k a)) : Prog.Never P (Prog.call op k) := by
  refine ⟨hop, fun r => ?_⟩
  cases r with
  | error e => trivial
  | ok a => exact hk a

theorem Prog.Never.bind {α β : Type} {P : Op → Bool} {p : Prog α} {f : α → Prog β}
    (hp : Prog.Never P p) (hf : ∀ a, Prog.Never P (f a)) : Prog.Never P (Prog.bind p f) := by
  induction p with
  | ret a => exact hf a
  | panic e => trivial
  | invoke op k ih => exact ⟨hp.1, fun r => ih r (hp.2 r)⟩

theorem Prog.Never.onPanic {α : Type} {P : Op → Bool} {p : Prog α} {h : PanicValue → Prog α}
    (hp : Prog.Never P p) (hh : ∀ e, Prog.Never P (h e)) : Prog.Never P (Prog.onPanic p h) := by
  induction p with
  | ret a => trivial
  | panic e => exact hh e
  | invoke op k ih => exact ⟨hp.1, fun r => ih r (hp.2 r)⟩

theorem Transaction_never {β : Type} {P : Op → Bool} (db : Conn) (captured : β)
    (fc : Conn → Prog (β × Option Err)) (hfc : Prog.Never P (fc .transaction))
    (hbegin : P (.txBegin db) = false) (hcommit : P .txCommit = false)
    (hrollback : P .txRollback = false) : Prog.Never P (Transaction db captured fc) := by
  unfold Transaction
  refine Prog.Never.call hbegin fun beginErr => ?_
  cases beginErr with
  | some e => trivial
  | none =>
    refine Prog.Never.bind (Prog.Never.onPanic hfc fun e => ?_) fun r => ?_
    · exact Prog.Never.call hrollback fun _ => trivial
    · rcases r with ⟨b, _ | e⟩
      · refine Prog.Never.call hcommit fun commitErr => ?_
        cases commitErr with
        | none => trivial
        | some e => exact Prog.Never.call hrollback fun _ => trivial
      · exact Prog.Never.call hrollback fun _ => trivial


/-! ## Go map lemmas -/

theorem GoMap.get_set {α : Type} (m : GoMap α) (k k' : Nat) (v : α) :
    GoMap.get (GoMap.set m k v) k' = if k = k' then some v else GoMap.get m k' := by
  induction m with
  | nil => simp [GoMap.set, GoMap.get]
  | cons e m ih =>
    rcases e with ⟨k0, v0⟩
    by_cases h0 : k0 = k
    · subst h0
      by_cases h1 : k0 = k' <;> simp [GoMap.set, GoMap.get, h1]
    · by_cases h1 : k0 = k'
      · subst h1
        have h2 : ¬ k = k0 := fun h => h0 h.symm
        simp [GoMap.set, GoMap.get, h0, h2]
      · simp [GoMap.set, GoMap.get, h0, h1, ih]

theorem GoMap.mem_keys_set {α : Type} (m : GoMap α) (k k' : Nat) (v : α) :
    k' ∈ (GoMap.set m k v).map Prod.fst ↔ k' = k ∨ k' ∈ m.map Prod.fst := by
  induction m with
  | nil => simp [GoMap.set]
  | cons e m ih =>
    rcases e with ⟨k0, v0⟩
    by_cases h0 : k0 = k
    · subst h0
      simp [GoMap.set]
    · simp only [GoMap.set, h0, if_false, List.map_cons, List.mem_cons, ih]
      constructor
      · rintro (h | h | h)
        · exact Or.inr (Or.inl h)
        · exact Or.inl h
        · exact Or.inr (Or.inr h)
      · rintro (h | h | h)
        · exact Or.inr (Or.inl h)
        · exact Or.inl h
        · exact Or.inr (Or.inr h)

theorem GoMap.nodup_keys_set {α : Type} (m : GoMap α) (k : Nat) (v : α)
    (h : (m.map Prod.fst).Nodup) : ((GoMap.set m k v).map Prod.fst).Nodup := by
  induction m with
  | nil => simp [GoMap.set]
  | cons e m ih =>
    rcases e with ⟨k0, v0⟩
    have hm : (m.map Prod.fst).Nodup := (List.nodup_cons.1 h).2
    have hk0 : k0 ∉ m.map Prod.fst := (List.nodup_cons.1 h).1
    by_cases h0 : k0 = k
    · subst h0
      simpa [GoMap.set] using h
    · simp only [GoMap.set, h0, if_false, List.map_cons]
      refine List.nodup_cons.2 ⟨?_, ih hm⟩
      intro hin
      rcases (GoMap.mem_keys_set m k k0 v).1 hin with h1 | h1
      · exact h0 h1
      · exact hk0 h1

/-- In a map without repeated keys an entry is in the list exactly when the
lookup of its key gives its value. -/
theorem GoMap.mem_iff_get {α : Type} (m : GoMap α) (h : (m.map Prod.fst).Nodup) (k : Nat)
    (v : α) : (k, v) ∈ m ↔ GoMap.get m k = some v := by
  induction m with
  | nil => simp [GoMap.get]
  | cons e m ih =>
    rcases e with ⟨k0, v0⟩
    have hm : (m.map Prod.fst).Nodup := (List.nodup_cons.1 h).2
    have hk0 : k0 ∉ m.map Prod.fst := (List.nodup_cons.1 h).1
    by_cases h0 : k0 = k
    · subst h0
      have hnot : ∀ w, (k0, w) ∉ m := fun w hw => hk0 (List.mem_map.2 ⟨(k0, w), hw, rfl⟩)
      simp only [GoMap.get, if_true, List.mem_cons, Prod.mk.injEq, true_and, Option.some.injEq]
      constructor
      · rintro (h1 | h1)
        · exact h1.symm
        · exact absurd h1 (hnot v)
      · intro h1
        exact Or.inl h1.symm
    · have h0' : ¬ k = k0 := fun h1 => h0 h1.symm
      simp [GoMap.get, h0, h0', ih hm]

theorem GoMap.mem_keys_iff_get {α : Type} (m : GoMap α) (k : Nat) :
    k ∈ m.map Prod.fst ↔ GoMap.get m k ≠ none := by
  induction m with
  | nil => simp [GoMap.get]
  | cons e m ih =>
    rcases e with ⟨k0, v0⟩
    by_cases h0 : k0 = k
    · subst h0
      simp [GoMap.get]
    · have h0' : ¬ k = k0 := fun h1 => h0 h1.symm
      simp [GoMap.get, h0, h0', ih]

/-- Storing the elements of a list one after the other: a key is looked up
in the last element stored under it, and in the initial map when no element
has it. -/
theorem GoMap.get_foldl_set {α β : Type} (key : β → Nat) (value : β → α) (l : List β)
    (init : GoMap α) (k : Nat) :
    GoMap.get (l.foldl (fun m x => GoMap.set m (key x) (value x)) init) k =
      match l.reverse.find? (fun x => key x == k) with
      | some x => some (value x)
      | none => GoMap.get init k := by
  induction l generalizing init with
  | nil => simp
  | cons x xs ih =>
    simp only [List.foldl_cons, ih, List.reverse_cons, List.find?_append]
    cases hfind : xs.reverse.find? (fun x => key x == k) with
    | some y => simp
    | none =>
      by_cases hx : key x = k
      · simp [GoMap.get_set, hx]
      · simp [GoMap.get_set, hx]

theorem GoMap.nodup_keys_foldl_set {α β : Type} (key : β → Nat) (value : β → α) (l : List β)
    (init : GoMap α) (h : (init.map Prod.fst).Nodup) :
    ((l.foldl (fun m x => GoMap.set m (key x) (value x)) init).map Prod.fst).Nodup := by
  induction l generalizing init with
  | nil => simpa using h
  | cons x xs ih => exact ih _ (GoMap.nodup_keys_set init (key x) (value x) h)

theorem GoMap.mem_keys_foldl_set {α β : Type} (key : β → Nat) (value : β → α) (l : List β)
    (init : GoMap α) (k : Nat) :
    k ∈ (l.foldl (fun m x => GoMap.set m (key x) (value x)) init).map Prod.fst ↔
      k ∈ l.map key ∨ k ∈ init.map Prod.fst := by
  induction l generalizing init with
  | nil => simp
  | cons x xs ih =>
    simp only [List.foldl_cons, ih, GoMap.mem_keys_set, List.map_cons, List.mem_cons]
    constructor
    · rintro (h | h | h)
      · exact Or.inl (Or.inr h)
      · exact Or.inl (Or.inl h)
      · exact Or.inr h
    · rintro ((h | h) | h)
      · exact Or.inr (Or.inl h)
      · exact Or.inl h
      · exact Or.inr (Or.inr h)

/-! ## Deferred functions and transactions -/

/-- Running a call: the operation, then the continuation on its answer; a
panic of the operation ends the run. -/
theorem Prog.run_call {σ α : Type} (env : Env σ) (op : Op) (k : op.Ans → Prog α) (s : σ) :
    Prog.run env (Prog.call op k) s =
      match (env op s).1 with
      | .error p => ⟨.error p, [op], (env op s).2⟩
      | .ok a =>
        ⟨(Prog.run env (k a) (env op s).2).outcome, op :: (Prog.run env (k a) (env op s).2).trace,
         (Prog.run env (k a) (env op s).2).state⟩ := by
  simp only [Prog.call, Prog.run_invoke]
  cases (env op s).1 <;> simp

/-- Running a program with a deferred panic handler: the program itself when
it returns, and the handler after it when it panics. -/
theorem Prog.run_onPanic {σ α : Type} (env : Env σ) (p : Prog α) (h : PanicValue → Prog α)
    (s : σ) :
    Prog.run env (Prog.onPanic p h) s =
      match (Prog.run env p s).outcome with
      | .ok _ => Prog.run env p s
      | .error e =>
        ⟨(Prog.run env (h e) (Prog.run env p s).state).outcome,
         (Prog.run env p s).trace ++ (Prog.run env (h e) (Prog.run env p s).state).trace,
         (Prog.run env (h e) (Prog.run env p s).state).state⟩ := by
  induction p generalizing s with
  | ret a => simp [Prog.onPanic]
  | panic e => simp [Prog.onPanic]
  | invoke op k ih =>
    simp only [Prog.onPanic, Prog.run_invoke]
    rw [ih]
    cases hout : (Prog.run env (k (env op s).1) (env op s).2).outcome with
    | ok a => simp [hout]
    | error e => simp

/-- A transaction that opens, whose closure returns nil and whose commit
succeeds: the operations are the begin, those of the closure, the commit. -/
theorem Transaction_run_ok {σ β : Type} (env : Env σ) (db : Conn) (captured : β)
    (fc : Conn → Prog (β × Option Err)) (s : σ) (b : β)
    (hbegin : (env (.txBegin db) s).1 = .ok none)
    (hbody : (Prog.run env (fc .transaction) (env (.txBegin db) s).2).outcome = .ok (b, none))
    (hcommit : ∀ s', (env .txCommit s').1 = .ok none) :
    (Prog.run env (Transaction db captured fc) s).outcome = .ok (b, none) ∧
    (Prog.run env (Transaction db captured fc) s).trace
      = .txBegin db :: ((Prog.run env (fc .transaction) (env (.txBegin db) s).2).trace
          ++ [.txCommit]) := by
  have hcatch : Prog.run env
      (Prog.onPanic (fc .transaction) fun p => Prog.call .txRollback fun _ => Prog.panic p)
      (env (.txBegin db) s).2 = Prog.run env (fc .transaction) (env (.txBegin db) s).2 := by
    rw [Prog.run_onPanic, hbody]
  unfold Transaction
  rw [Prog.run_call]
  simp only [hbegin, Prog.run_bind, hcatch, hbody, Prog.run_call, hcommit, Prog.run_ret]
  simp

/-- The loop of `UpdateFolderSubscriptions` when every `Exec` succeeds: one
call per entry, in order, and nil at the end. -/
theorem UpdateFolderSubscriptions.loop_run_ok {σ : Type} (env : Env σ) (user : User) (db : Conn)
    (hexec : ∀ c sql vars s, (env (.exec c sql vars) s).1 = .ok none)
    (l : List (Nat × Bool)) (s : σ) :
    (Prog.run env (UpdateFolderSubscriptions.loop user db l) s).outcome = .ok none ∧
    (Prog.run env (UpdateFolderSubscriptions.loop user db l) s).trace
      = l.map fun entry => Op.exec db "call update_user_folder_subscription(?, ?, ?)"
          [.uint user.Id, .uint entry.1, .int (if entry.2 then 1 else 0)] := by
  induction l generalizing s with
  | nil => simp [UpdateFolderSubscriptions.loop]
  | cons entry rest ih =>
    rcases entry with ⟨folderId, subscribed⟩
    simp only [UpdateFolderSubscriptions.loop, Prog.call, Prog.run_invoke, hexec, List.map_cons]
    exact ⟨(ih _).1, by rw [(ih _).2]⟩

/-- Storing one value under the key of every element of a list. -/
theorem GoMap.get_foldl_const {α β : Type} (key : β → Nat) (c : α) (l : List β)
    (init : GoMap α) (k : Nat) :
    GoMap.get (l.foldl (fun m x => GoMap.set m (key x) c) init) k =
      if k ∈ l.map key then some c else GoMap.get init k := by
  induction l generalizing init with
  | nil => simp
  | cons x xs ih =>
    simp only [List.foldl_cons, ih, List.map_cons, List.mem_cons, GoMap.get_set]
    by_cases h1 : k ∈ xs.map key
    · simp [h1]
    · by_cases h2 : key x = k
      · simp [h2]
      · have h3 : ¬ k = key x := fun h => h2 h.symm
        simp [h1, h2, h3]

/-- The map of `UpdateFolderSubscriptions`: `true` for the ids of
`subsList`, `false` for the other cached folders, nothing else. -/
theorem UpdateFolderSubscriptions.subscriptions_get (entries : List Folder)
    (subsList : List Nat) (k : Nat) :
    GoMap.get (UpdateFolderSubscriptions.subscriptions entries subsList) k =
      if k ∈ subsList then some true
      else if k ∈ entries.map Folder.Id then some false else none := by
  unfold UpdateFolderSubscriptions.subscriptions
  have h1 := GoMap.get_foldl_const (fun folderId : Nat => folderId) true subsList
    (entries.foldl (fun m folder => GoMap.set m folder.Id false) []) k
  have h2 := GoMap.get_foldl_const Folder.Id false entries [] k
  simp only [List.map_id'] at h1
  rw [h1, h2]
  simp [GoMap.get]

theorem UpdateFolderSubscriptions.subscriptions_nodup (entries : List Folder)
    (subsList : List Nat) :
    ((UpdateFolderSubscriptions.subscriptions entries subsList).map Prod.fst).Nodup := by
  unfold UpdateFolderSubscriptions.subscriptions
  exact GoMap.nodup_keys_foldl_set (fun folderId : Nat => folderId) (fun _ => true) subsList _
    (GoMap.nodup_keys_foldl_set Folder.Id (fun _ => false) entries [] (by simp))

/-- Every database call of the sample script succeeds. -/
theorem sampleScript_dbCallsSucceed : sampleScript.env.dbCallsSucceed := by
  refine ⟨?_, ?_, ?_, ?_, ?_, ?_, ?_⟩
  · intro st f d s
    cases d <;> exact ⟨_, rfl⟩
  · intros; rfl
  · intros; exact ⟨_, rfl⟩
  · intros; rfl
  · intros; rfl
  · intros; rfl
  · intros; rfl

/-! ## Where an operation of a run comes from -/

/-- An operation satisfying `P` in a run of a call whose own operation does
not satisfy `P` is an operation of the continuation, so the call
answered. -/
theorem Prog.any_call {σ α : Type} {P : Op → Bool} (env : Env σ) (op : Op)
    (k : op.Ans → Prog α) (s : σ) (hop : P op = false)
    (h : (Prog.run env (Prog.call op k) s).trace.any P = true) :
    ∃ a, (env op s).1 = .ok a ∧ (Prog.run env (k a) (env op s).2).trace.any P = true := by
  rw [Prog.run_call] at h
  cases hans : (env op s).1 with
  | error e => simp [hans, hop] at h
  | ok a =>
    rw [hans] at h
    simp only [List.any_cons, hop, Bool.false_or] at h
    exact ⟨a, rfl, h⟩

/-- An operation satisfying `P` in a run of a sequence is an operation of
the first part, or the first part returned and it is an operation of the
second. -/
theorem Prog.any_bind {σ α β : Type} {P : Op → Bool} (env : Env σ) (p : Prog α)
    (f : α → Prog β) (s : σ) (h : (Prog.run env (Prog.bind p f) s).trace.any P = true) :
    (Prog.run env p s).trace.any P = true ∨
    ∃ a, (Prog.run env p s).outcome = .ok a ∧
      (Prog.run env (f a) (Prog.run env p s).state).trace.any P = true := by
  rw [Prog.run_bind] at h
  cases hout : (Prog.run env p s).outcome with
  | error e =>
    rw [hout] at h
    exact Or.inl h
  | ok a =>
    rw [hout] at h
    simp only [List.any_append, Bool.or_eq_true] at h
    rcases h with h | h
    · exact Or.inl h
    · exact Or.inr ⟨a, rfl, h⟩

/-- An operation satisfying `P` in a run with a deferred panic handler is an
operation of the program or of the handler. -/
theorem Prog.any_onPanic {σ α : Type} {P : Op → Bool} (env : Env σ) (p : Prog α)
    (hd : PanicValue → Prog α) (s : σ)
    (h : (Prog.run env (Prog.onPanic p hd) s).trace.any P = true) :
    (Prog.run env p s).trace.any P = true ∨
    ∃ e, (Prog.run env (hd e) (Prog.run env p s).state).trace.any P = true := by
  rw [Prog.run_onPanic] at h
  cases hout : (Prog.run env p s).outcome with
  | ok a =>
    rw [hout] at h
    exact Or.inl h
  | error e =>
    rw [hout] at h
    simp only [List.any_append, Bool.or_eq_true] at h
    rcases h with h | h
    · exact Or.inl h
    · exact Or.inr ⟨e, h⟩

/-- An operation satisfying `P` in a run of a transaction, when begin,
commit and rollback do not satisfy `P`, is an operation of the closure, and
the transaction was opened. -/
theorem Transaction_any {σ β : Type} {P : Op → Bool} (env : Env σ) (db : Conn) (captured : β)
    (fc : Conn → Prog (β × Option Err)) (s : σ)
    (hbegin : P (.txBegin db) = false) (hcommit : P .txCommit = false)
    (hrollback : P .txRollback = false)
    (h : (Prog.run env (Transaction db captured fc) s).trace.any P = true) :
    (env (.txBegin db) s).1 = .ok none ∧
    (Prog.run env (fc .transaction) (env (.txBegin db) s).2).trace.any P = true := by
  have hroll : ∀ {γ : Type} (q : Prog γ) (s' : σ),
      (Prog.run env (Prog.call .txRollback fun _ => q) s').trace.any P = true →
      (Prog.run env q (env .txRollback s').2).trace.any P = true := by
    intro γ q s' hq
    obtain ⟨_, _, h2⟩ := Prog.any_call env .txRollback (fun _ => q) s' hrollback hq
    exact h2
  unfold Transaction at h
  obtain ⟨beginErr, hb, h1⟩ := Prog.any_call env (.txBegin db) _ s hbegin h
  cases beginErr with
  | some e => simp at h1
  | none =>
    refine ⟨hb, ?_⟩
    simp only at h1
    rcases Prog.any_bind env _ _ _ h1 with h2 | ⟨r, _, h2⟩
    · rcases Prog.any_onPanic env _ _ _ h2 with h3 | ⟨e, h3⟩
      · exact h3
      · have h4 := hroll _ _ h3
        simp at h4
    · rcases r with ⟨b, _ | e⟩
      · simp only at h2
        obtain ⟨commitErr, _, h3⟩ := Prog.any_call env .txCommit _ _ hcommit h2
        cases commitErr with
        | none => simp at h3
        | some e =>
          have h4 := hroll _ _ h3
          simp at h4
      · have h4 := hroll _ _ h2
        simp at h4

/-! ## Projections of the trace -/

/-- A projection `f` of the operations sees nothing of a program that never
performs an operation on which `f` is defined. -/
theorem Prog.Never.filterMap_trace {σ α γ : Type} {f : Op → Option γ} {p : Prog α}
    (h : Prog.Never (fun op => (f op).isSome) p) (env : Env σ) (s : σ) :
    (Prog.run env p s).trace.filterMap f = [] := by
  induction p generalizing s with
  | ret a => simp
  | panic e => simp
  | invoke op k ih =>
    have hop : f op = none := by
      have h1 := h.1
      cases hf : f op with
      | none => rfl
      | some v => simp [hf] at h1
    simp only [Prog.run_invoke, List.filterMap_cons, hop]
    exact ih _ (h.2 _) _

/-- What `f` sees of a sequence whose second part is invisible to it is what
it sees of the first part. -/
theorem Prog.filterMap_bind_never {σ α β γ : Type} {f : Op → Option γ} (env : Env σ)
    (p : Prog α) (g : α → Prog β) (s : σ)
    (hg : ∀ a, Prog.Never (fun op => (f op).isSome) (g a)) :
    (Prog.run env (Prog.bind p g) s).trace.filterMap f
      = (Prog.run env p s).trace.filterMap f := by
  rw [Prog.run_bind]
  cases (Prog.run env p s).outcome with
  | error e => rfl
  | ok a => simp [Prog.Never.filterMap_trace (hg a)]

/-- What `f` sees of a program with a deferred panic handler that is
invisible to it is what it sees of the program. -/
theorem Prog.filterMap_onPanic_never {σ α γ : Type} {f : Op → Option γ} (env : Env σ)
    (p : Prog α) (hd : PanicValue → Prog α) (s : σ)
    (hh : ∀ e, Prog.Never (fun op => (f op).isSome) (hd e)) :
    (Prog.run env (Prog.onPanic p hd) s).trace.filterMap f
      = (Prog.run env p s).trace.filterMap f := by
  rw [Prog.run_onPanic]
  cases (Prog.run env p s).outcome with
  | ok a => rfl
  | error e => simp [Prog.Never.filterMap_trace (hh e)]

/-- What a projection `f` of the operations sees of a transaction, when it
does not see begin, commit and rollback: nothing, or what it sees of the
closure. -/
theorem Transaction_filterMap {σ β γ : Type} (f : Op → Option γ) (env : Env σ) (db : Conn)
    (captured : β) (fc : Conn → Prog (β × Option Err)) (s : σ)
    (hbegin : f (.txBegin db) = none) (hcommit : f .txCommit = none)
    (hrollback : f .txRollback = none) :
    (Prog.run env (Transaction db captured fc) s).trace.filterMap f = [] ∨
    (Prog.run env (Transaction db captured fc) s).trace.filterMap f
      = (Prog.run env (fc .transaction) (env (.txBegin db) s).2).trace.filterMap f := by
  have hroll : ∀ {δ : Type} (q : Prog δ), Prog.Never (fun op => (f op).isSome) q →
      Prog.Never (fun op => (f op).isSome) (Prog.call .txRollback fun _ => q) :=
    fun q hq => Prog.Never.call (by simp [hrollback]) fun _ => hq
  unfold Transaction
  rw [Prog.run_call]
  cases hb : (env (.txBegin db) s).1 with
  | error e => left; simp [hbegin]
  | ok beginErr =>
    cases beginErr with
    | some e => left; simp [hbegin]
    | none =>
      right
      simp only [List.filterMap_cons, hbegin]
      rw [Prog.filterMap_bind_never, Prog.filterMap_onPanic_never]
      · intro e
        exact hroll _ trivial
      · intro r
        rcases r with ⟨b, _ | e⟩
        · refine Prog.Never.call (by simp [hcommit]) fun commitErr => ?_
          cases commitErr with
          | none => trivial
          | some e => exact hroll _ trivial
        · exact hroll _ trivial

/-- The update calls of the loop of `UpdateFolderSubscriptions`, in every
run: the calls for an initial part of the entries, in order. -/
theorem UpdateFolderSubscriptions.loop_calls_prefix {σ : Type} (env : Env σ) (user : User)
    (db : Conn) (l : List (Nat × Bool)) (s : σ) :
    (Prog.run env (UpdateFolderSubscriptions.loop user db l) s).trace.filterMap
        (Op.asFolderSubscriptionUpdate user.Id)
      <+: l.map fun entry => (entry.1, if entry.2 then (1 : Int) else 0) := by
  induction l generalizing s with
  | nil => simp [UpdateFolderSubscriptions.loop]
  | cons entry rest ih =>
    rcases entry with ⟨folderId, subscribed⟩
    simp only [UpdateFolderSubscriptions.loop, List.map_cons]
    rw [Prog.run_call]
    cases (env (.exec db "call update_user_folder_subscription(?, ?, ?)"
        [.uint user.Id, .uint folderId, .int (if subscribed then 1 else 0)]) s).1 with
    | error e =>
      simp only [List.filterMap_cons, Op.asFolderSubscriptionUpdate, and_self, if_true,
        List.filterMap_nil]
      exact (List.prefix_cons_inj _).2 List.nil_prefix
    | ok resultError =>
      cases resultError with
      | some e =>
        simp only [Prog.run_ret, List.filterMap_cons, Op.asFolderSubscriptionUpdate, and_self,
          if_true, List.filterMap_nil]
        exact (List.prefix_cons_inj _).2 List.nil_prefix
      | none =>
        simp only [List.filterMap_cons, Op.asFolderSubscriptionUpdate, and_self, if_true]
        exact (List.prefix_cons_inj _).2 (ih _)

/-! ## The admin-only wrapper -/

/-- C1: every `AdminHandler` endpoint, from `GetModerationHistory` to
`GetUserDiscussionBlocks`, runs its whole body as the callback of the
admin-only wrapper.  For every wrapper and request, if the wrapper does not
invoke the callback on that request (its result is the same whatever the
callback is), then what the endpoint does is what the wrapper does with any
other callback `idle`, in particular with one that performs no operation: the
endpoint calls no business-logic function, touches no cache, publishes no
post, and its response does not depend on forum data. -/
theorem AdminHandler_body_is_callback {ρ : Type} (W : AdminOnlyHandler ρ) (req : Request)
    (hskip : ∀ callback callback' : Callback, W req callback = W req callback')
    (idle : Callback) :
    AdminHandler.GetModerationHistory W req = W req idle ∧
    AdminHandler.GetModerationQueue W req = W req idle ∧
    AdminHandler.GetReportsByPost W req = W req idle ∧
    AdminHandler.GetCommentsByPost W req = W req idle ∧
    AdminHandler.GetReportsByDiscussion W req = W req idle ∧
    AdminHandler.GetCommentsByDiscussion W req = W req idle ∧
    AdminHandler.CreateComment W req = W req idle ∧
    AdminHandler.LockDiscussion W req = W req idle ∧
    AdminHandler.PremoderateDiscussion W req = W req idle ∧
    AdminHandler.DeleteDiscussion W req = W req idle ∧
    AdminHandler.MoveDiscussion W req = W req idle ∧
    AdminHandler.EraseDiscussion W req = W req idle ∧
    AdminHandler.GetBlockedUsers W req = W req idle ∧
    AdminHandler.BlockUserDiscussion W req = W req idle ∧
    AdminHandler.UnblockUserDiscussion W req = W req idle ∧
    AdminHandler.DeletePost W req = W req idle ∧
    AdminHandler.UndeletePost W req = W req idle ∧
    AdminHandler.SearchUsers W req = W req idle ∧
    AdminHandler.SetUserStatus W req = W req idle ∧
    AdminHandler.GetUserHistory W req = W req idle ∧
    AdminHandler.GetUserDiscussionBlocks W req = W req idle := by
  refine ⟨?_, ?_, ?_, ?_, ?_, ?_, ?_, ?_, ?_, ?_, ?_, ?_, ?_, ?_, ?_, ?_, ?_, ?_, ?_, ?_, ?_⟩ <;>
    exact hskip _ _

/-- C1 at a concrete input: the caller is a user who is not an
administrator; every endpoint answers 401 and performs no operation. -/
theorem AdminHandler_body_is_callback_witness :
    (∀ callback callback' : Callback,
      AdminOnlyHandlerFunction (some sampleUser) sampleRequest callback
        = AdminOnlyHandlerFunction (some sampleUser) sampleRequest callback') ∧
    AdminHandler.GetModerationHistory (AdminOnlyHandlerFunction (some sampleUser)) sampleRequest
      = .ret (401, .null, "unauthorised") ∧
    AdminHandler.GetModerationQueue (AdminOnlyHandlerFunction (some sampleUser)) sampleRequest
      = .ret (401, .null, "unauthorised") ∧
    AdminHandler.GetReportsByPost (AdminOnlyHandlerFunction (some sampleUser)) sampleRequest
      = .ret (401, .null, "unauthorised") ∧
    AdminHandler.GetCommentsByPost (AdminOnlyHandlerFunction (some sampleUser)) sampleRequest
      = .ret (401, .null, "unauthorised") ∧
    AdminHandler.GetReportsByDiscussion (AdminOnlyHandlerFunction (some sampleUser)) sampleRequest
      = .ret (401, .null, "unauthorised") ∧
    AdminHandler.GetCommentsByDiscussion (AdminOnlyHandlerFunction (some sampleUser)) sampleRequest
      = .ret (401, .null, "unauthorised") ∧
    AdminHandler.CreateComment (AdminOnlyHandlerFunction (some sampleUser)) sampleRequest
      = .ret (401, .null, "unauthorised") ∧
    AdminHandler.LockDiscussion (AdminOnlyHandlerFunction (some sampleUser)) sampleRequest
      = .ret (401, .null, "unauthorised") ∧
    AdminHandler.PremoderateDiscussion (AdminOnlyHandlerFunction (some sampleUser)) sampleRequest
      = .ret (401, .null, "unauthorised") ∧
    AdminHandler.DeleteDiscussion (AdminOnlyHandlerFunction (some sampleUser)) sampleRequest
      = .ret (401, .null, "unauthorised") ∧
    AdminHandler.MoveDiscussion (AdminOnlyHandlerFunction (some sampleUser)) sampleRequest
      = .ret (401, .null, "unauthorised") ∧
    AdminHandler.EraseDiscussion (AdminOnlyHandlerFunction (some sampleUser)) sampleRequest
      = .ret (401, .null, "unauthorised") ∧
    AdminHandler.GetBlockedUsers (AdminOnlyHandlerFunction (some sampleUser)) sampleRequest
      = .ret (401, .null, "unauthorised") ∧
    AdminHandler.BlockUserDiscussion (AdminOnlyHandlerFunction (some sampleUser)) sampleRequest
      = .ret (401, .null, "unauthorised") ∧
    AdminHandler.UnblockUserDiscussion (AdminOnlyHandlerFunction (some sampleUser)) sampleRequest
      = .ret (401, .null, "unauthorised") ∧
    AdminHandler.DeletePost (AdminOnlyHandlerFunction (some sampleUser)) sampleRequest
      = .ret (401, .null, "unauthorised") ∧
    AdminHandler.UndeletePost (AdminOnlyHandlerFunction (some sampleUser)) sampleRequest
      = .ret (401, .null, "unauthorised") ∧
    AdminHandler.SearchUsers (AdminOnlyHandlerFunction (some sampleUser)) sampleRequest
      = .ret (401, .null, "unauthorised") ∧
    AdminHandler.SetUserStatus (AdminOnlyHandlerFunction (some sampleUser)) sampleRequest
      = .ret (401, .null, "unauthorised") ∧
    AdminHandler.GetUserHistory (AdminOnlyHandlerFunction (some sampleUser)) sampleRequest
      = .ret (401, .null, "unauthorised") ∧
    AdminHandler.GetUserDiscussionBlocks (AdminOnlyHandlerFunction (some sampleUser)) sampleRequest
      = .ret (401, .null, "unauthorised") :=
  ⟨fun _ _ => rfl,
   AdminHandler_body_is_callback (AdminOnlyHandlerFunction (some sampleUser)) sampleRequest
    (fun _ _ => rfl) (fun _ _ _ => .ret (401, .null, "unauthorised"))⟩

/-! ## CreateUser -/

/-- C2 as stated fails: in an environment in which every database call
succeeds and one user with the username or e-mail exists, `CreateUser`
rejects the request itself and `call create_user` is never reached. -/
theorem CreateUser_rejects_before_stored_procedure :
    ({ sampleScript with countOfExisting := .ok 1 }).env.dbCallsSucceed ∧
    ((CreateUser ⟨"johnny", "secret-password", "j@example.org"⟩ "10.0.0.1" .connection).run
      ({ sampleScript with countOfExisting := .ok 1 }).env 0).trace.any Op.isCreateUserCall
        = false ∧
    ((CreateUser ⟨"johnny", "secret-password", "j@example.org"⟩ "10.0.0.1" .connection).run
      ({ sampleScript with countOfExisting := .ok 1 }).env 0).outcome
        = .error (.withWrapper .ErrBadRequest (.errorsNew
            "This username is already taken or e-mail address has already been used")) := by
  refine ⟨⟨?_, ?_, ?_, ?_, ?_, ?_, ?_⟩, ?_, ?_⟩
  · intro st f d s
    cases d <;> exact ⟨_, rfl⟩
  · intros; rfl
  · intros; exact ⟨_, rfl⟩
  · intros; rfl
  · intros; rfl
  · intros; rfl
  · intros; rfl
  · rfl
  · rfl

/-- C2, amended: `CreateUser` decides on its own from the count of the users
whose username is the escaped username or whose e-mail is the given one.  For
every credentials input for which that count query succeeds, `CreateUser`
reaches `call create_user` if and only if the count is not greater than
zero. -/
theorem CreateUser_reaches_stored_procedure_iff {σ : Type} (env : Env σ) (s s1 : σ)
    (credentials : LoginCredentials) (ipAddress : String) (db : Conn) (countOfExisting : Int)
    (hcount : env (.tableCount db "user" "username = ? or email = ?"
      [.str (htmlEscapeString credentials.Username), .str credentials.Email]) s
        = (.ok (.ok countOfExisting), s1)) :
    ((CreateUser credentials ipAddress db).run env s).trace.any Op.isCreateUserCall = true
      ↔ ¬ countOfExisting > 0 := by
  by_cases h : countOfExisting > 0
  · simp [CreateUser, Prog.call, Prog.run_invoke, hcount, h, Op.isCreateUserCall]
  · simp [CreateUser, Prog.call, Prog.run_invoke, hcount, h, Op.isCreateUserCall, Conn.Raw]

/-- C2, amended, at a concrete input: no user with the name or e-mail
exists. -/
theorem CreateUser_reaches_stored_procedure_iff_witness :
    ((CreateUser ⟨"johnny", "secret-password", "j@example.org"⟩ "10.0.0.1" .connection).run
      sampleScript.env 0).trace.any Op.isCreateUserCall = true ↔ ¬ (0 : Int) > 0 :=
  CreateUser_reaches_stored_procedure_iff sampleScript.env 0 1
    ⟨"johnny", "secret-password", "j@example.org"⟩ "10.0.0.1" .connection 0 rfl

/-- For every credentials input, if the count of the existing users whose
username equals the HTML-escaped username or whose e-mail equals the given
e-mail is greater than zero, `CreateUser` panics in the call
`PanicWithWrapper(ErrBadRequest, errors.New(message))`, and the count query
is the only operation it performs: no `call create_user`, no user-history
insert, no login-history insert, no signup confirmation, no e-mail. -/
theorem CreateUser_existing_user_rejected {σ : Type} (env : Env σ) (s s1 : σ)
    (credentials : LoginCredentials) (ipAddress : String) (db : Conn) (countOfExisting : Int)
    (hcount : env (.tableCount db "user" "username = ? or email = ?"
      [.str (htmlEscapeString credentials.Username), .str credentials.Email]) s
        = (.ok (.ok countOfExisting), s1))
    (hexists : countOfExisting > 0) :
    ((CreateUser credentials ipAddress db).run env s).outcome
      = .error (.withWrapper .ErrBadRequest (.errorsNew
          "This username is already taken or e-mail address has already been used")) ∧
    ((CreateUser credentials ipAddress db).run env s).trace
      = [.tableCount db "user" "username = ? or email = ?"
          [.str (htmlEscapeString credentials.Username), .str credentials.Email]] ∧
    ((CreateUser credentials ipAddress db).run env s).state = s1 := by
  simp [CreateUser, Prog.call, Prog.run_invoke, hcount, hexists]

/-- The rejection of an existing user at a concrete input: two users with the
name or e-mail exist. -/
theorem CreateUser_existing_user_rejected_witness :
    ((CreateUser ⟨"<b>", "secret-password", "j@example.org"⟩ "10.0.0.1" .connection).run
      ({ sampleScript with countOfExisting := .ok 2 }).env 0).outcome
      = .error (.withWrapper .ErrBadRequest (.errorsNew
          "This username is already taken or e-mail address has already been used")) ∧
    ((CreateUser ⟨"<b>", "secret-password", "j@example.org"⟩ "10.0.0.1" .connection).run
      ({ sampleScript with countOfExisting := .ok 2 }).env 0).trace
      = [.tableCount .connection "user" "username = ? or email = ?"
          [.str (htmlEscapeString "<b>"), .str "j@example.org"]] ∧
    ((CreateUser ⟨"<b>", "secret-password", "j@example.org"⟩ "10.0.0.1" .connection).run
      ({ sampleScript with countOfExisting := .ok 2 }).env 0).state = 1 :=
  CreateUser_existing_user_rejected ({ sampleScript with countOfExisting := .ok 2 }).env 0 1
    ⟨"<b>", "secret-password", "j@example.org"⟩ "10.0.0.1" .connection 2 rfl (by decide)

/-- C3 fails on the code in the value `CreateUser` fails with.  Two users
with the name or e-mail exist.  The count query is the only operation, as the
claim says, and the run ends in a panic; but the call is
`PanicWithWrapper(ErrBadRequest, errors.New(message))`, with `ErrBadRequest`
in the place of the wrapped error and the message in the place of the
wrapper, the reverse of every other call in `user.go`.  The value of the
panic is not the bad-request value for that message, which is what
`PanicWithWrapper(errors.New(message), ErrBadRequest)` panics with. -/
theorem CreateUser_existing_user_wrapper_swapped :
    ((CreateUser ⟨"johnny", "secret-password", "j@example.org"⟩ "10.0.0.1" .connection).run
      ({ sampleScript with countOfExisting := .ok 2 }).env 0).outcome
      = .error (.withWrapper .ErrBadRequest (.errorsNew
          "This username is already taken or e-mail address has already been used")) ∧
    ((CreateUser ⟨"johnny", "secret-password", "j@example.org"⟩ "10.0.0.1" .connection).run
      ({ sampleScript with countOfExisting := .ok 2 }).env 0).outcome
      ≠ ((PanicWithWrapper (.errorsNew
          "This username is already taken or e-mail address has already been used")
          .ErrBadRequest : Prog User).run
        ({ sampleScript with countOfExisting := .ok 2 }).env 1).outcome ∧
    ((CreateUser ⟨"johnny", "secret-password", "j@example.org"⟩ "10.0.0.1" .connection).run
      ({ sampleScript with countOfExisting := .ok 2 }).env 0).trace
      = [.tableCount .connection "user" "username = ? or email = ?"
          [.str "johnny", .str "j@example.org"]] := by
  refine ⟨rfl, ?_, rfl⟩
  intro h
  have h1 : (Except.error (PanicValue.withWrapper .ErrBadRequest (.errorsNew
      "This username is already taken or e-mail address has already been used")) :
        Except PanicValue User)
      = .error (.withWrapper (.errorsNew
          "This username is already taken or e-mail address has already been used")
          .ErrBadRequest) := h
  simp at h1

/-! ## ValidatePasswordResetKey -/

/-- C6: for a key that parses as a UUID and for which
`find_password_reset_request` returns a request, `ValidatePasswordResetKey`
returns `ErrExpired` (and no request) if and only if the request's
`CreatedDate` plus one hour is strictly before the current time; otherwise it
returns that request with a nil error.  A request created exactly one hour
ago is among the accepted ones. -/
theorem ValidatePasswordResetKey_expired_iff {σ : Type} (env : Env σ) (s s1 s2 s3 : σ)
    (key : String) (db : Conn) (request : PasswordResetRequest) (now : Int)
    (hparse : env (.uuidParse key) s = (.ok true, s1))
    (hfind : env (.query (db.Raw "call find_password_reset_request(?)" [.str key])
      .Take .passwordResetRequest) s1 = (.ok (.ok request), s2))
    (hnow : env .timeNow s2 = (.ok now, s3)) :
    (((ValidatePasswordResetKey key db).run env s).outcome = .ok (none, some .ErrExpired)
        ↔ request.CreatedDate + Hour < now) ∧
    (¬ request.CreatedDate + Hour < now →
      ((ValidatePasswordResetKey key db).run env s).outcome = .ok (some request, none)) ∧
    (request.CreatedDate + Hour = now →
      ((ValidatePasswordResetKey key db).run env s).outcome = .ok (some request, none)) := by
  have hrun : ((ValidatePasswordResetKey key db).run env s).outcome =
      .ok (if request.CreatedDate + Hour < now then (none, some .ErrExpired)
        else (some request, none)) := by
    simp [ValidatePasswordResetKey, Prog.call, Prog.run_invoke, hparse, hfind, hnow]
    split <;> simp
  rw [hrun]
  refine ⟨?_, ?_, ?_⟩
  · by_cases h : request.CreatedDate + Hour < now <;> simp [h]
  · intro h; simp [h]
  · intro h; simp [← h]

/-- C6 at a concrete input: a request created exactly one hour before the
current time. -/
theorem ValidatePasswordResetKey_expired_iff_witness :
    (((ValidatePasswordResetKey "k" .connection).run
        ({ sampleScript with now := Hour + 1000 }).env 0).outcome
          = .ok (none, some .ErrExpired) ↔ (1000 : Int) + Hour < Hour + 1000) ∧
    (¬ (1000 : Int) + Hour < Hour + 1000 →
      ((ValidatePasswordResetKey "k" .connection).run
        ({ sampleScript with now := Hour + 1000 }).env 0).outcome
          = .ok (some ⟨7, 5540, 1000⟩, none)) ∧
    ((1000 : Int) + Hour = Hour + 1000 →
      ((ValidatePasswordResetKey "k" .connection).run
        ({ sampleScript with now := Hour + 1000 }).env 0).outcome
          = .ok (some ⟨7, 5540, 1000⟩, none)) :=
  ValidatePasswordResetKey_expired_iff ({ sampleScript with now := Hour + 1000 }).env 0 1 2 3
    "k" .connection ⟨7, 5540, 1000⟩ (Hour + 1000) rfl rfl rfl

/-! ## UpdatePassword -/

/-- The length check of `UpdatePassword` counts bytes: a new password of
fewer than 8 bytes is rejected with the value `PanicWithWrapper` builds from
the message and `ErrBadRequest`, before any operation. -/
theorem UpdatePassword_short_rejected {σ : Type} (env : Env σ) (s : σ) (user : Option User)
    (updateData : UserOptionsUpdateData) (db : Conn) (h : len updateData.NewPassword < 8) :
    ((UpdatePassword user updateData db).run env s).outcome
      = .error (.withWrapper
          (.errorsNew "Passwords must be at least 8 characters long") .ErrBadRequest) ∧
    ((UpdatePassword user updateData db).run env s).trace = [] ∧
    ((UpdatePassword user updateData db).run env s).state = s := by
  simp [UpdatePassword, h]

/-- A new password of 8 bytes or more passes the length check: the first
thing `UpdatePassword` does is to open the transaction. -/
theorem UpdatePassword_long_passes {σ : Type} (env : Env σ) (s : σ) (user : Option User)
    (updateData : UserOptionsUpdateData) (db : Conn) (h : 8 ≤ len updateData.NewPassword) :
    ((UpdatePassword user updateData db).run env s).trace.head? = some (.txBegin db) := by
  have h' : ¬ len updateData.NewPassword < 8 := by omega
  simp only [UpdatePassword, h', if_false, Transaction, Prog.call, Prog.bind, Prog.run_invoke]
  rfl

/-- C4 fails on the code: the new password "éééé" has 4 characters, fewer
than 8, and 8 bytes; `UpdatePassword` does not reject it, it opens the
transaction, checks the old password and stores the hash of the 4-character
password. -/
theorem UpdatePassword_accepts_four_character_password :
    "éééé".length = 4 ∧ len "éééé" = 8 ∧
    ((UpdatePassword (some sampleUser) ⟨"old-password", "éééé", ""⟩ .connection).run
      sampleScript.env 0).outcome = .ok (some sampleUser) ∧
    ((UpdatePassword (some sampleUser) ⟨"old-password", "éééé", ""⟩ .connection).run
      sampleScript.env 0).trace =
      [.txBegin .connection,
       .query (Conn.transaction.Raw "call find_user(?, ?)"
         [.str "johnny", .sha256Hex "old-password"]) .Take .user,
       .query (Conn.transaction.Raw "call update_user_password(?, ?)"
         [.uint 5540, .sha256Hex "éééé"]) .Scan .user,
       .userCacheFlushById 5540,
       .txCommit,
       .userCacheGet 5540] := by
  refine ⟨by decide, by decide, rfl, rfl⟩

/-- No run of `UpdatePassword`, whatever the database and the caches answer,
runs the statement that deletes the password reset request. -/
theorem UpdatePassword_never_deletes_reset_request {σ : Type} (env : Env σ) (s : σ)
    (user : Option User) (updateData : UserOptionsUpdateData) (db : Conn) :
    ((UpdatePassword user updateData db).run env s).trace.any Op.isDeletePasswordReset
      = false := by
  apply Prog.Never.run_trace
  have hstore : ∀ userId, Prog.Never Op.isDeletePasswordReset
      (UpdatePassword.store updateData userId .transaction) := by
    intro userId
    refine Prog.Never.call (by simp [Op.isDeletePasswordReset, Conn.Raw]) fun result => ?_
    cases result with
    | error e => trivial
    | ok u => exact Prog.Never.call rfl fun _ => trivial
  have hvalidate : Prog.Never Op.isDeletePasswordReset
      (ValidatePasswordResetKey updateData.ResetKey .transaction) := by
    refine Prog.Never.call rfl fun parsed => ?_
    cases parsed with
    | false => trivial
    | true =>
      refine Prog.Never.call (by simp [Op.isDeletePasswordReset, Conn.Raw]) fun result => ?_
      cases result with
      | error e => (try simp only []); split <;> trivial
      | ok request =>
        refine Prog.Never.call rfl fun now => ?_
        split <;> trivial
  have hclosure : Prog.Never Op.isDeletePasswordReset
      (UpdatePassword.closure user updateData .transaction) := by
    unfold UpdatePassword.closure
    cases user with
    | some u =>
      refine Prog.Never.call (by simp [Op.isDeletePasswordReset, Conn.Raw]) fun result => ?_
      cases result with
      | error e => (try simp only []); split <;> trivial
      | ok found =>
        (try simp only [])
        split
        · trivial
        · exact hstore _
    | none =>
      (try simp only [])
      split
      · refine Prog.Never.bind hvalidate fun validated => ?_
        rcases validated with ⟨_ | resetRequest, _ | err⟩
        · trivial
        · trivial
        · exact hstore _
        · trivial
      · trivial
  unfold UpdatePassword
  split
  · trivial
  · refine Prog.Never.bind (Transaction_never db 0 _ hclosure rfl rfl rfl) fun r => ?_
    rcases r with ⟨userId, _ | err⟩
    · exact Prog.Never.call rfl fun _ => trivial
    · trivial

/-- C5 fails on the code: with no logged-in user and a reset key that
validates, `UpdatePassword` goes from the validation of the key straight to
`update_user_password`.  The statement `delete from password_reset where
id = ?` is built with `tx.Raw` and never run, so no operation of the run
deletes the reset request. -/
theorem UpdatePassword_reset_key_not_cleared :
    ((UpdatePassword none ⟨"", "new-password", "6ba7b810-9dad-11d1-80b4-00c04fd430c8"⟩
      .connection).run sampleScript.env 0).outcome = .ok (some sampleUser) ∧
    ((UpdatePassword none ⟨"", "new-password", "6ba7b810-9dad-11d1-80b4-00c04fd430c8"⟩
      .connection).run sampleScript.env 0).trace =
      [.txBegin .connection,
       .uuidParse "6ba7b810-9dad-11d1-80b4-00c04fd430c8",
       .query (Conn.transaction.Raw "call find_password_reset_request(?)"
         [.str "6ba7b810-9dad-11d1-80b4-00c04fd430c8"]) .Take .passwordResetRequest,
       .timeNow,
       .query (Conn.transaction.Raw "call update_user_password(?, ?)"
         [.uint 5540, .sha256Hex "new-password"]) .Scan .user,
       .userCacheFlushById 5540,
       .txCommit,
       .userCacheGet 5540] ∧
    ((UpdatePassword none ⟨"", "new-password", "6ba7b810-9dad-11d1-80b4-00c04fd430c8"⟩
      .connection).run sampleScript.env 0).trace.any Op.isDeletePasswordReset = false := by
  refine ⟨rfl, rfl, rfl⟩


/-! ## ValidateSignupConfirmationKey -/

/-- C7: `ValidateSignupConfirmationKey` rejects without side effects.  If the
key does not parse as a UUID it returns `ErrBadRequest` and the parse is the
only operation; if no confirmation request is found it returns
`ErrBadRequest` and the lookup is the last operation; if the request found
has `CreatedDate` plus 72 hours strictly before the current time it returns
`ErrExpired` and reading the clock is the last operation.  In each case
`accept_signup_confirmation_request` is not called, the user cache is not
reloaded and no user-history or login-history row is written. -/
theorem ValidateSignupConfirmationKey_rejects {σ : Type} (env : Env σ) (s : σ)
    (key ipAddress : String) (db : Conn) :
    (∀ s1, env (.uuidParse key) s = (.ok false, s1) →
      (ValidateSignupConfirmationKey key ipAddress db).run env s
        = ⟨.ok (none, some .ErrBadRequest), [.uuidParse key], s1⟩) ∧
    (∀ s1 s2, env (.uuidParse key) s = (.ok true, s1) →
      env (.query (db.Raw "call find_signup_confirmation_request(?)" [.str key])
        .Take .signupConfirmation) s1 = (.ok (.error .ErrRecordNotFound), s2) →
      (ValidateSignupConfirmationKey key ipAddress db).run env s
        = ⟨.ok (none, some .ErrBadRequest),
           [.uuidParse key,
            .query (db.Raw "call find_signup_confirmation_request(?)" [.str key])
              .Take .signupConfirmation], s2⟩) ∧
    (∀ s1 s2 s3 request now, env (.uuidParse key) s = (.ok true, s1) →
      env (.query (db.Raw "call find_signup_confirmation_request(?)" [.str key])
        .Take .signupConfirmation) s1 = (.ok (.ok request), s2) →
      env .timeNow s2 = (.ok now, s3) →
      request.CreatedDate + 72 * Hour < now →
      (ValidateSignupConfirmationKey key ipAddress db).run env s
        = ⟨.ok (none, some .ErrExpired),
           [.uuidParse key,
            .query (db.Raw "call find_signup_confirmation_request(?)" [.str key])
              .Take .signupConfirmation,
            .timeNow], s3⟩) := by
  refine ⟨?_, ?_, ?_⟩
  · intro s1 hparse
    simp [ValidateSignupConfirmationKey, Prog.call, Prog.run_invoke, hparse]
  · intro s1 s2 hparse hfind
    simp [ValidateSignupConfirmationKey, Prog.call, Prog.run_invoke, hparse, hfind]
  · intro s1 s2 s3 request now hparse hfind hnow hexpired
    simp [ValidateSignupConfirmationKey, Prog.call, Prog.run_invoke, hparse, hfind, hnow,
      hexpired]

/-- C7 at concrete inputs: a key that is not a UUID, a key without a
request, and a request created 72 hours and one nanosecond ago. -/
theorem ValidateSignupConfirmationKey_rejects_witness :
    (ValidateSignupConfirmationKey "not-a-uuid" "10.0.0.1" .connection).run
        ({ sampleScript with uuidParses := false }).env 0
      = ⟨.ok (none, some .ErrBadRequest), [.uuidParse "not-a-uuid"], 1⟩ ∧
    (ValidateSignupConfirmationKey "k" "10.0.0.1" .connection).run
        ({ sampleScript with confirmation := .error .ErrRecordNotFound }).env 0
      = ⟨.ok (none, some .ErrBadRequest),
         [.uuidParse "k",
          .query (Conn.connection.Raw "call find_signup_confirmation_request(?)" [.str "k"])
            .Take .signupConfirmation], 2⟩ ∧
    (ValidateSignupConfirmationKey "k" "10.0.0.1" .connection).run
        ({ sampleScript with now := 1000 + 72 * Hour + 1 }).env 0
      = ⟨.ok (none, some .ErrExpired),
         [.uuidParse "k",
          .query (Conn.connection.Raw "call find_signup_confirmation_request(?)" [.str "k"])
            .Take .signupConfirmation,
          .timeNow], 3⟩ :=
  ⟨(ValidateSignupConfirmationKey_rejects ({ sampleScript with uuidParses := false }).env 0
      "not-a-uuid" "10.0.0.1" .connection).1 1 rfl,
   (ValidateSignupConfirmationKey_rejects
      ({ sampleScript with confirmation := .error .ErrRecordNotFound }).env 0
      "k" "10.0.0.1" .connection).2.1 1 2 rfl rfl,
   (ValidateSignupConfirmationKey_rejects
      ({ sampleScript with now := 1000 + 72 * Hour + 1 }).env 0
      "k" "10.0.0.1" .connection).2.2 1 2 3 ⟨9, 1000⟩ (1000 + 72 * Hour + 1) rfl rfl rfl
      (by decide)⟩

/-! ## ValidateUserLogin -/

/-- C8: `ValidateUserLogin` never logs in a deleted account.  When `find_user`
returns a user (with a non-zero id, so that the cache is consulted) and the
cached user has `AccountExpired` set or `Enabled` unset, it panics with the
value `PanicWithWrapper` builds from "This account has been deleted" and
`ErrUnauthorised`; it returns no user, and the lookup and the cache read are
the only operations: no `login_history` row is written and `last_login_date`
is not updated.  When `find_user` finds no record it panics with the
unauthorised value for "Unknown username or incorrect password", and when
`find_user` returns a user with id 0 it panics with `ErrUnauthorised`; in
both cases the lookup is the only operation. -/
theorem ValidateUserLogin_deleted_account_rejected {σ : Type} (env : Env σ) (s : σ)
    (credentials : LoginCredentials) (ipAddress : String) (db : Conn) :
    (∀ s1 s2 userLookup user,
      env (.query (db.Raw "call find_user(?, ?)"
        [.str (htmlEscapeString credentials.Username), .sha256Hex credentials.Password])
        .Take .user) s = (.ok (.ok userLookup), s1) →
      userLookup.Id ≠ 0 →
      env (.userCacheGet userLookup.Id) s1 = (.ok (some user), s2) →
      (user.AccountExpired = true ∨ user.Enabled = false) →
      (ValidateUserLogin credentials ipAddress db).run env s
        = ⟨.error (.withWrapper (.errorsNew "This account has been deleted") .ErrUnauthorised),
           [.query (db.Raw "call find_user(?, ?)"
              [.str (htmlEscapeString credentials.Username), .sha256Hex credentials.Password])
              .Take .user,
            .userCacheGet userLookup.Id], s2⟩) ∧
    (∀ s1,
      env (.query (db.Raw "call find_user(?, ?)"
        [.str (htmlEscapeString credentials.Username), .sha256Hex credentials.Password])
        .Take .user) s = (.ok (.error .ErrRecordNotFound), s1) →
      (ValidateUserLogin credentials ipAddress db).run env s
        = ⟨.error (.withWrapper (.errorsNew "Unknown username or incorrect password")
             .ErrUnauthorised),
           [.query (db.Raw "call find_user(?, ?)"
              [.str (htmlEscapeString credentials.Username), .sha256Hex credentials.Password])
              .Take .user], s1⟩) ∧
    (∀ s1 userLookup,
      env (.query (db.Raw "call find_user(?, ?)"
        [.str (htmlEscapeString credentials.Username), .sha256Hex credentials.Password])
        .Take .user) s = (.ok (.ok userLookup), s1) →
      userLookup.Id = 0 →
      (ValidateUserLogin credentials ipAddress db).run env s
        = ⟨.error (.value .ErrUnauthorised),
           [.query (db.Raw "call find_user(?, ?)"
              [.str (htmlEscapeString credentials.Username), .sha256Hex credentials.Password])
              .Take .user], s1⟩) := by
  refine ⟨?_, ?_, ?_⟩
  · intro s1 s2 userLookup user hfind hid hcache hdeleted
    rcases hdeleted with h | h <;>
      simp [ValidateUserLogin, Prog.call, Prog.run_invoke, hfind, hid, hcache, h]
  · intro s1 hfind
    simp [ValidateUserLogin, Prog.call, Prog.run_invoke, hfind]
  · intro s1 userLookup hfind hid
    simp [ValidateUserLogin, Prog.call, Prog.run_invoke, hfind, hid]


/-- C8 at concrete inputs: an expired account, a disabled account, unknown
credentials, and a row with id 0. -/
theorem ValidateUserLogin_deleted_account_rejected_witness :
    (ValidateUserLogin ⟨"johnny", "secret-password", ""⟩ "10.0.0.1" .connection).run
        ({ sampleScript with
            cachedUser := some { sampleUser with AccountExpired := true } }).env 0
      = ⟨.error (.withWrapper (.errorsNew "This account has been deleted") .ErrUnauthorised),
         [.query (Conn.connection.Raw "call find_user(?, ?)"
            [.str (htmlEscapeString "johnny"), .sha256Hex "secret-password"]) .Take .user,
          .userCacheGet 5540], 2⟩ ∧
    (ValidateUserLogin ⟨"johnny", "secret-password", ""⟩ "10.0.0.1" .connection).run
        ({ sampleScript with
            cachedUser := some { sampleUser with Enabled := false } }).env 0
      = ⟨.error (.withWrapper (.errorsNew "This account has been deleted") .ErrUnauthorised),
         [.query (Conn.connection.Raw "call find_user(?, ?)"
            [.str (htmlEscapeString "johnny"), .sha256Hex "secret-password"]) .Take .user,
          .userCacheGet 5540], 2⟩ ∧
    (ValidateUserLogin ⟨"johnny", "secret-password", ""⟩ "10.0.0.1" .connection).run
        ({ sampleScript with userRow := .error .ErrRecordNotFound }).env 0
      = ⟨.error (.withWrapper (.errorsNew "Unknown username or incorrect password")
           .ErrUnauthorised),
         [.query (Conn.connection.Raw "call find_user(?, ?)"
            [.str (htmlEscapeString "johnny"), .sha256Hex "secret-password"]) .Take .user],
         1⟩ ∧
    (ValidateUserLogin ⟨"johnny", "secret-password", ""⟩ "10.0.0.1" .connection).run
        ({ sampleScript with userRow := .ok { sampleUser with Id := 0 } }).env 0
      = ⟨.error (.value .ErrUnauthorised),
         [.query (Conn.connection.Raw "call find_user(?, ?)"
            [.str (htmlEscapeString "johnny"), .sha256Hex "secret-password"]) .Take .user],
         1⟩ :=
  ⟨(ValidateUserLogin_deleted_account_rejected
      ({ sampleScript with cachedUser := some { sampleUser with AccountExpired := true } }).env
      0 ⟨"johnny", "secret-password", ""⟩ "10.0.0.1" .connection).1 1 2 sampleUser
      { sampleUser with AccountExpired := true } rfl (by decide) rfl (Or.inl rfl),
   (ValidateUserLogin_deleted_account_rejected
      ({ sampleScript with cachedUser := some { sampleUser with Enabled := false } }).env
      0 ⟨"johnny", "secret-password", ""⟩ "10.0.0.1" .connection).1 1 2 sampleUser
      { sampleUser with Enabled := false } rfl (by decide) rfl (Or.inr rfl),
   (ValidateUserLogin_deleted_account_rejected
      ({ sampleScript with userRow := .error .ErrRecordNotFound }).env
      0 ⟨"johnny", "secret-password", ""⟩ "10.0.0.1" .connection).2.1 1 rfl,
   (ValidateUserLogin_deleted_account_rejected
      ({ sampleScript with userRow := .ok { sampleUser with Id := 0 } }).env
      0 ⟨"johnny", "secret-password", ""⟩ "10.0.0.1" .connection).2.2 1
      { sampleUser with Id := 0 } rfl rfl⟩

/-! ## Blocking users and user status -/

/-- C9: blocking and unblocking is reflected in the returned blocked-user
map.  For every discussion, target user, admin and map before the call, the
map `DiscussionCache.BlockOrUnblockUser` returns has an entry for the target
user's id if and only if `block` is true.  When the wrapper invokes the
callback for the admin `user`, the `BlockUserDiscussion` handler calls it with
`block = true`, and `UnblockUserDiscussion` with `block = false`, for the
discussion and the user whose ids are in the URL, and returns the map it
gets, unchanged, with status 200. -/
theorem BlockUserDiscussion_reflected {σ : Type} (env : Env σ) (s s1 s2 s3 s4 s5 s6 : σ)
    (req : Request) (user : User) (db : Conn) (discussionId targetUserId : Nat)
    (discussion : Discussion) (targetUser : User) (blocked : BlockedUsers)
    (hdiscussionId : env (.ExtractVarInt "discussionId" req) s = (.ok discussionId, s1))
    (huserId : env (.ExtractVarInt "userId" req) s1 = (.ok targetUserId, s2))
    (hdiscussion : env (.discussionCacheGet discussionId user) s2 = (.ok (some discussion), s3))
    (htarget : env (.userCacheGet targetUserId) s3 = (.ok (some targetUser), s4))
    (hblock : env (.discussionCacheBlockOrUnblockUser (some discussion) (some targetUser)
        true user) s4
      = (.ok (DiscussionCache.BlockOrUnblockUser blocked discussion targetUser true user), s5))
    (hunblock : env (.discussionCacheBlockOrUnblockUser (some discussion) (some targetUser)
        false user) s4
      = (.ok (DiscussionCache.BlockOrUnblockUser blocked discussion targetUser false user),
          s6)) :
    (∀ (m : BlockedUsers) (d : Discussion) (target admin : User) (block : Bool),
      (DiscussionCache.BlockOrUnblockUser m d target block admin).containsId target.Id = true
        ↔ block = true) ∧
    (AdminHandler.BlockUserDiscussion (fun r callback => callback r user db) req).run env s
      = ⟨.ok (StatusOK, .blockedUsers
            (DiscussionCache.BlockOrUnblockUser blocked discussion targetUser true user), ""),
         [.ExtractVarInt "discussionId" req, .ExtractVarInt "userId" req,
          .discussionCacheGet discussionId user, .userCacheGet targetUserId,
          .discussionCacheBlockOrUnblockUser (some discussion) (some targetUser) true user],
         s5⟩ ∧
    (AdminHandler.UnblockUserDiscussion (fun r callback => callback r user db) req).run env s
      = ⟨.ok (StatusOK, .blockedUsers
            (DiscussionCache.BlockOrUnblockUser blocked discussion targetUser false user), ""),
         [.ExtractVarInt "discussionId" req, .ExtractVarInt "userId" req,
          .discussionCacheGet discussionId user, .userCacheGet targetUserId,
          .discussionCacheBlockOrUnblockUser (some discussion) (some targetUser) false user],
         s6⟩ ∧
    (DiscussionCache.BlockOrUnblockUser blocked discussion targetUser true user).containsId
      targetUser.Id = true ∧
    (DiscussionCache.BlockOrUnblockUser blocked discussion targetUser false user).containsId
      targetUser.Id = false := by
  have hspec : ∀ (m : BlockedUsers) (d : Discussion) (target admin : User) (block : Bool),
      (DiscussionCache.BlockOrUnblockUser m d target block admin).containsId target.Id = true
        ↔ block = true := by
    intro m d target admin block
    cases block <;>
      simp [DiscussionCache.BlockOrUnblockUser, BlockedUsers.containsId]
  refine ⟨hspec, ?_, ?_, ?_, ?_⟩
  · simp [AdminHandler.BlockUserDiscussion, Prog.call, Prog.run_invoke, hdiscussionId, huserId,
      hdiscussion, htarget, hblock]
  · simp [AdminHandler.UnblockUserDiscussion, Prog.call, Prog.run_invoke, hdiscussionId,
      huserId, hdiscussion, htarget, hunblock]
  · exact (hspec _ _ _ _ true).2 rfl
  · have h := hspec blocked discussion targetUser user false
    cases hc : (DiscussionCache.BlockOrUnblockUser blocked discussion targetUser false
      user).containsId targetUser.Id
    · rfl
    · exact absurd (h.1 hc) (by decide)


/-- C9 at a concrete input: user 5540 is blocked in discussion 25876 before
the call, and the admin is user 50. -/
theorem BlockUserDiscussion_reflected_witness :
    (AdminHandler.BlockUserDiscussion
        (fun r callback => callback r sampleAdmin .connection) sampleRequest).run
        ({ sampleScript with blocked := [(5540, sampleUser)] }).env 0
      = ⟨.ok (StatusOK, .blockedUsers [(5540, sampleUser)], ""),
         [.ExtractVarInt "discussionId" sampleRequest, .ExtractVarInt "userId" sampleRequest,
          .discussionCacheGet 25876 sampleAdmin, .userCacheGet 5540,
          .discussionCacheBlockOrUnblockUser (some ⟨25876, 1⟩) (some sampleUser) true
            sampleAdmin],
         5⟩ ∧
    (AdminHandler.UnblockUserDiscussion
        (fun r callback => callback r sampleAdmin .connection) sampleRequest).run
        ({ sampleScript with blocked := [(5540, sampleUser)] }).env 0
      = ⟨.ok (StatusOK, .blockedUsers [], ""),
         [.ExtractVarInt "discussionId" sampleRequest, .ExtractVarInt "userId" sampleRequest,
          .discussionCacheGet 25876 sampleAdmin, .userCacheGet 5540,
          .discussionCacheBlockOrUnblockUser (some ⟨25876, 1⟩) (some sampleUser) false
            sampleAdmin],
         5⟩ :=
  ⟨(BlockUserDiscussion_reflected ({ sampleScript with blocked := [(5540, sampleUser)] }).env
      0 1 2 3 4 5 5 sampleRequest sampleAdmin .connection 25876 5540 ⟨25876, 1⟩ sampleUser
      [(5540, sampleUser)] rfl rfl rfl rfl rfl rfl).2.1,
   (BlockUserDiscussion_reflected ({ sampleScript with blocked := [(5540, sampleUser)] }).env
      0 1 2 3 4 5 5 sampleRequest sampleAdmin .connection 25876 5540 ⟨25876, 1⟩ sampleUser
      [(5540, sampleUser)] rfl rfl rfl rfl rfl rfl).2.2.1⟩

/-- C10: for every target user, admin user and boolean `b`, `SetUserStatus`
with the field map `{"isWatch": b}` returns no error and a user whose
`IsWatch` is `b`; setting false and then true, on the user returned by the
first call or on the target again, leaves `IsWatch` true.  When the wrapper
invokes the callback for the admin `user`, the `SetUserStatus` handler calls
it for the user whose id is in the URL with the decoded field map and returns
the updated user with status 200. -/
theorem SetUserStatus_isWatch {σ : Type} (env : Env σ) (s s1 s2 s3 s4 : σ)
    (req : Request) (user : User) (db : Conn) (userId : Nat) (fieldMap : FieldMap)
    (targetUser : User)
    (huserId : env (.ExtractVarInt "userId" req) s = (.ok userId, s1))
    (hdecode : env (.decodeFieldMap req.body) s1 = (.ok (.ok fieldMap), s2))
    (htarget : env (.userCacheGet userId) s2 = (.ok (some targetUser), s3))
    (hset : env (.SetUserStatus targetUser fieldMap user) s3
      = (.ok (SetUserStatus targetUser fieldMap user), s4)) :
    (∀ (target admin : User) (b : Bool), ∃ updated,
      SetUserStatus target [("isWatch", .bool b)] admin = (some updated, none) ∧
      updated.IsWatch = b) ∧
    (∀ (target admin : User), ∃ first second again,
      SetUserStatus target [("isWatch", .bool false)] admin = (some first, none) ∧
      SetUserStatus first [("isWatch", .bool true)] admin = (some second, none) ∧
      second.IsWatch = true ∧
      SetUserStatus target [("isWatch", .bool true)] admin = (some again, none) ∧
      again.IsWatch = true) ∧
    (AdminHandler.SetUserStatus (fun r callback => callback r user db) req).run env s
      = ⟨.ok (StatusOK, .user (SetUserStatus targetUser fieldMap user).1, ""),
         [.ExtractVarInt "userId" req, .decodeFieldMap req.body, .userCacheGet userId,
          .SetUserStatus targetUser fieldMap user],
         s4⟩ := by
  refine ⟨?_, ?_, ?_⟩
  · intro target admin b
    exact ⟨_, rfl, by simp [SetUserStatus.applyField]⟩
  · intro target admin
    exact ⟨_, _, _, rfl, rfl, by simp [SetUserStatus.applyField], rfl,
      by simp [SetUserStatus.applyField]⟩
  · simp [AdminHandler.SetUserStatus, Prog.call, Prog.run_invoke, huserId, hdecode, htarget,
      hset, SetUserStatus]

/-- C10 at a concrete input: the admin sets `isWatch` of user 5540. -/
theorem SetUserStatus_isWatch_witness :
    (AdminHandler.SetUserStatus
        (fun r callback => callback r sampleAdmin .connection) sampleRequest).run
        sampleScript.env 0
      = ⟨.ok (StatusOK, .user (some { sampleUser with IsWatch := true }), ""),
         [.ExtractVarInt "userId" sampleRequest, .decodeFieldMap "", .userCacheGet 5540,
          .SetUserStatus sampleUser [("isWatch", .bool true)] sampleAdmin],
         4⟩ :=
  (SetUserStatus_isWatch sampleScript.env 0 1 2 3 4 sampleRequest sampleAdmin .connection 5540
    [("isWatch", .bool true)] sampleUser rfl rfl rfl rfl).2.2


/-! ## CreateComment and SearchUsers handlers -/

/-- C11: the `CreateComment` handler never attaches a moderator comment to a
post of another discussion.  When the wrapper invokes the callback for the
admin `user`: if the request body does not decode as a `ModeratorComment` the
handler panics with the bad-request value that `PanicWithWrapper` builds from
the decoding error, after reading the two route variables and before any
cache or database lookup; and if the post fetched by `postId` has a
`DiscussionId` different from the `discussionId` of the URL the handler
panics with `ErrBadRequest`, and the two cache reads and `GetPost` are the
last operations: neither `businesslogic.CreateComment` nor
`postProcessor.PublishPost` is called. -/
theorem CreateComment_other_discussion_rejected {σ : Type} (env : Env σ) (s : σ)
    (req : Request) (user : User) (db : Conn) :
    (∀ s1 s2 s3 discussionId postId err,
      env (.ExtractVarInt "discussionId" req) s = (.ok discussionId, s1) →
      env (.ExtractVarInt "postId" req) s1 = (.ok postId, s2) →
      env (.decodeModeratorComment req.body) s2 = (.ok (.error err), s3) →
      (AdminHandler.CreateComment (fun r callback => callback r user db) req).run env s
        = ⟨.error (.withWrapper err .ErrBadRequest),
           [.ExtractVarInt "discussionId" req, .ExtractVarInt "postId" req,
            .decodeModeratorComment req.body], s3⟩) ∧
    (∀ s1 s2 s3 s4 s5 s6 discussionId postId comment discussion folder post,
      env (.ExtractVarInt "discussionId" req) s = (.ok discussionId, s1) →
      env (.ExtractVarInt "postId" req) s1 = (.ok postId, s2) →
      env (.decodeModeratorComment req.body) s2 = (.ok (.ok comment), s3) →
      env (.discussionCacheGet discussionId user) s3 = (.ok (some discussion), s4) →
      env (.folderCacheGet discussion.FolderId user) s4 = (.ok folder, s5) →
      env (.GetPost postId) s5 = (.ok (some post, none), s6) →
      post.DiscussionId ≠ discussionId →
      (AdminHandler.CreateComment (fun r callback => callback r user db) req).run env s
        = ⟨.error (.value .ErrBadRequest),
           [.ExtractVarInt "discussionId" req, .ExtractVarInt "postId" req,
            .decodeModeratorComment req.body, .discussionCacheGet discussionId user,
            .folderCacheGet discussion.FolderId user, .GetPost postId], s6⟩) := by
  refine ⟨?_, ?_⟩
  · intro s1 s2 s3 discussionId postId err h1 h2 h3
    simp [AdminHandler.CreateComment, Prog.call, Prog.run_invoke, h1, h2, h3]
  · intro s1 s2 s3 s4 s5 s6 discussionId postId comment discussion folder post
      h1 h2 h3 h4 h5 h6 hne
    simp [AdminHandler.CreateComment, Prog.call, Prog.run_invoke, h1, h2, h3, h4, h5, h6, hne]


/-- C11 at concrete inputs: a body that does not decode, and post 3 of
discussion 25876 addressed under discussion 1. -/
theorem CreateComment_other_discussion_rejected_witness :
    (AdminHandler.CreateComment
        (fun r callback => callback r sampleAdmin .connection) mismatchedRequest).run
        sampleScript.envBadBody 0
      = ⟨.error (.withWrapper (.external "unexpected end of JSON input") .ErrBadRequest),
         [.ExtractVarInt "discussionId" mismatchedRequest,
          .ExtractVarInt "postId" mismatchedRequest,
          .decodeModeratorComment "comment"], 3⟩ ∧
    (AdminHandler.CreateComment
        (fun r callback => callback r sampleAdmin .connection) mismatchedRequest).run
        sampleScript.env 0
      = ⟨.error (.value .ErrBadRequest),
         [.ExtractVarInt "discussionId" mismatchedRequest,
          .ExtractVarInt "postId" mismatchedRequest,
          .decodeModeratorComment "comment", .discussionCacheGet 1 sampleAdmin,
          .folderCacheGet 1 sampleAdmin, .GetPost 3], 6⟩ :=
  ⟨(CreateComment_other_discussion_rejected sampleScript.envBadBody 0 mismatchedRequest
      sampleAdmin .connection).1 1 2 3 (1 : Nat) (3 : Nat)
      (.external "unexpected end of JSON input")
      rfl rfl rfl,
   (CreateComment_other_discussion_rejected sampleScript.env 0 mismatchedRequest
      sampleAdmin .connection).2 1 2 3 4 5 6 (1 : Nat) (3 : Nat) ⟨"comment"⟩ ⟨1, 1⟩
      (some ⟨1⟩)
      ⟨3, 25876, "text", ""⟩ rfl rfl rfl rfl rfl rfl (by decide)⟩

/-- C12 as stated fails in its last sentence: a search term was supplied, of
21 bytes, with no filter, and the handler answers 400 "You must supply a
search term". -/
theorem SearchUsers_long_term_rejected :
    ({ sampleRequest with query := [("term", "abcdefghijklmnopqrstu")] }).queryGet "term"
      = "abcdefghijklmnopqrstu" ∧
    len "abcdefghijklmnopqrstu" = 21 ∧
    (AdminHandler.SearchUsers (fun r callback => callback r sampleAdmin .connection)
        { sampleRequest with query := [("term", "abcdefghijklmnopqrstu")] }).run
        sampleScript.env 0
      = ⟨.ok (StatusBadRequest, .null, "You must supply a search term"), [], 0⟩ := by
  refine ⟨rfl, by decide, rfl⟩

/-- C12, amended: the `SearchUsers` handler dispatches on the query
parameters as a total three-way case split.  If `term` has between 1 and 20
bytes it calls `businesslogic.SearchUsers(term)` and returns its results with
status 200, whatever `filter` is; otherwise, if `filter` is not empty, it
calls `businesslogic.FilterUsers(filter)` and returns its results with status
200; otherwise it returns 400 with "You must supply a search term" and
performs no operation.  The 400 response is given exactly when `term` is
empty or longer than 20 bytes and `filter` is empty. -/
theorem SearchUsers_dispatch {σ : Type} (env : Env σ) (s : σ) (req : Request) (user : User)
    (db : Conn) :
    (0 < len (req.queryGet "term") ∧ len (req.queryGet "term") ≤ 20 →
      ∀ s1 results, env (.SearchUsers (req.queryGet "term")) s = (.ok results, s1) →
        (AdminHandler.SearchUsers (fun r callback => callback r user db) req).run env s
          = ⟨.ok (StatusOK, .results results, ""), [.SearchUsers (req.queryGet "term")], s1⟩) ∧
    (¬ (0 < len (req.queryGet "term") ∧ len (req.queryGet "term") ≤ 20) →
      0 < len (req.queryGet "filter") →
      ∀ s1 results, env (.FilterUsers (req.queryGet "filter")) s = (.ok results, s1) →
        (AdminHandler.SearchUsers (fun r callback => callback r user db) req).run env s
          = ⟨.ok (StatusOK, .results results, ""), [.FilterUsers (req.queryGet "filter")],
             s1⟩) ∧
    (¬ (0 < len (req.queryGet "term") ∧ len (req.queryGet "term") ≤ 20) →
      len (req.queryGet "filter") = 0 →
      (AdminHandler.SearchUsers (fun r callback => callback r user db) req).run env s
        = ⟨.ok (StatusBadRequest, .null, "You must supply a search term"), [], s⟩) ∧
    (((AdminHandler.SearchUsers (fun r callback => callback r user db) req).run env s).outcome
        = .ok (StatusBadRequest, .null, "You must supply a search term")
      ↔ (len (req.queryGet "term") = 0 ∨ 20 < len (req.queryGet "term")) ∧
        len (req.queryGet "filter") = 0) := by
  refine ⟨?_, ?_, ?_, ?_⟩
  · intro hterm s1 results hsearch
    simp [AdminHandler.SearchUsers, Prog.call, Prog.run_invoke, hterm, hsearch]
  · intro hterm hfilter s1 results hsearch
    simp [AdminHandler.SearchUsers, Prog.call, Prog.run_invoke, hterm, hfilter, hsearch]
  · intro hterm hfilter
    simp [AdminHandler.SearchUsers, hterm, hfilter]
  · by_cases hterm : 0 < len (req.queryGet "term") ∧ len (req.queryGet "term") ≤ 20
    · simp only [AdminHandler.SearchUsers, gt_iff_lt, hterm, and_self, if_true, Prog.call,
        Prog.run_invoke]
      rcases hans : env (.SearchUsers (req.queryGet "term")) s with ⟨r, s'⟩
      cases r <;> simp [StatusOK, StatusBadRequest] <;> omega
    · by_cases hfilter : 0 < len (req.queryGet "filter")
      · simp only [AdminHandler.SearchUsers, gt_iff_lt, hterm, hfilter, if_false, if_true,
          Prog.call, Prog.run_invoke]
        rcases hans : env (.FilterUsers (req.queryGet "filter")) s with ⟨r, s'⟩
        cases r <;> simp [StatusOK, StatusBadRequest] <;> omega
      · have hf0 : len (req.queryGet "filter") = 0 := by omega
        simp [AdminHandler.SearchUsers, hterm, hf0]
        omega

/-- C12, amended, at concrete inputs: a term of 6 bytes, a filter without a
term, and a request with neither. -/
theorem SearchUsers_dispatch_witness :
    (AdminHandler.SearchUsers (fun r callback => callback r sampleAdmin .connection)
        sampleRequest).run sampleScript.env 0
      = ⟨.ok (StatusOK, .results [], ""), [.SearchUsers "johnny"], 1⟩ ∧
    (AdminHandler.SearchUsers (fun r callback => callback r sampleAdmin .connection)
        { sampleRequest with query := [("filter", "watch")] }).run sampleScript.env 0
      = ⟨.ok (StatusOK, .results [], ""), [.FilterUsers "watch"], 1⟩ ∧
    (AdminHandler.SearchUsers (fun r callback => callback r sampleAdmin .connection)
        { sampleRequest with query := [] }).run sampleScript.env 0
      = ⟨.ok (StatusBadRequest, .null, "You must supply a search term"), [], 0⟩ :=
  ⟨(SearchUsers_dispatch sampleScript.env 0 sampleRequest sampleAdmin .connection).1
      (by decide) 1 [] rfl,
   (SearchUsers_dispatch sampleScript.env 0 { sampleRequest with query := [("filter", "watch")] }
      sampleAdmin .connection).2.1 (by decide) (by decide) 1 [] rfl,
   (SearchUsers_dispatch sampleScript.env 0 { sampleRequest with query := [] }
      sampleAdmin .connection).2.2.1 (by decide) (by decide)⟩


/-! ## UpdateIgnore -/

/-- C14: `UpdateIgnore` is write-through and replaces the ignore list.  When
`update_user_ignore` returns rows, the function returns with
`user.IgnoredUsers` holding exactly one entry per distinct `IgnoredUserId`
among the rows, each key holding the last row with that id; the map depends
on the rows only, so no entry of the previous map survives unless the stored
procedure returned it; the other fields of the user are as before; and the
user put into the user cache is this updated user, the cache write being the
only operation after the stored procedure.  When the stored procedure fails,
the function panics right after it: no map is assigned and the cache is not
written. -/
theorem UpdateIgnore_replaces_ignore_list {σ : Type} (env : Env σ) (s : σ) (user : User)
    (ignoreUserId : Nat) (ignoreState : Int) (db : Conn) :
    (∀ s1 s2 (ignored : List IgnoredUser),
      env (.query (db.Raw "call update_user_ignore(?, ?, ?)"
        [.uint user.Id, .uint ignoreUserId, .int ignoreState]) .Scan .ignoredUsers) s
          = (.ok (.ok ignored), s1) →
      env (.userCachePut { user with IgnoredUsers := UpdateIgnore.ignoredUsers ignored }) s1
          = (.ok (), s2) →
      ∃ updated,
        (UpdateIgnore user ignoreUserId ignoreState db).run env s
          = ⟨.ok updated,
             [.query (db.Raw "call update_user_ignore(?, ?, ?)"
                [.uint user.Id, .uint ignoreUserId, .int ignoreState]) .Scan .ignoredUsers,
              .userCachePut updated], s2⟩ ∧
        (updated.IgnoredUsers.map Prod.fst).Nodup ∧
        (∀ id, id ∈ updated.IgnoredUsers.map Prod.fst ↔
          id ∈ ignored.map IgnoredUser.IgnoredUserId) ∧
        (∀ id, GoMap.get updated.IgnoredUsers id
          = ignored.reverse.find? (fun item => item.IgnoredUserId == id)) ∧
        (∀ id item, (id, item) ∈ updated.IgnoredUsers → item ∈ ignored) ∧
        { updated with IgnoredUsers := user.IgnoredUsers } = user) ∧
    (∀ s1 e,
      env (.query (db.Raw "call update_user_ignore(?, ?, ?)"
        [.uint user.Id, .uint ignoreUserId, .int ignoreState]) .Scan .ignoredUsers) s
          = (.ok (.error e), s1) →
      (UpdateIgnore user ignoreUserId ignoreState db).run env s
        = ⟨.error (.withWrapper (.gorm e) .ErrInternalError),
           [.query (db.Raw "call update_user_ignore(?, ?, ?)"
              [.uint user.Id, .uint ignoreUserId, .int ignoreState]) .Scan .ignoredUsers],
           s1⟩) := by
  refine ⟨?_, ?_⟩
  · intro s1 s2 ignored hquery hput
    have hnodup : ((UpdateIgnore.ignoredUsers ignored).map Prod.fst).Nodup :=
      GoMap.nodup_keys_foldl_set IgnoredUser.IgnoredUserId id ignored [] (by simp)
    have hget : ∀ k, GoMap.get (UpdateIgnore.ignoredUsers ignored) k
        = ignored.reverse.find? (fun item => item.IgnoredUserId == k) := by
      intro k
      have h := GoMap.get_foldl_set IgnoredUser.IgnoredUserId id ignored [] k
      simp only [id, GoMap.get] at h
      unfold UpdateIgnore.ignoredUsers
      rw [h]
      cases ignored.reverse.find? (fun item => item.IgnoredUserId == k) <;> rfl
    refine ⟨{ user with IgnoredUsers := UpdateIgnore.ignoredUsers ignored }, ?_, hnodup, ?_,
      hget, ?_, rfl⟩
    · simp [UpdateIgnore, Prog.call, Prog.run_invoke, hquery, hput]
    · intro k
      have h := GoMap.mem_keys_foldl_set IgnoredUser.IgnoredUserId id ignored [] k
      simpa [UpdateIgnore.ignoredUsers] using h
    · intro k item hmem
      have h1 := (GoMap.mem_iff_get _ hnodup k item).1 hmem
      rw [hget] at h1
      exact List.mem_reverse.1 (List.mem_of_find?_eq_some h1)
  · intro s1 e hquery
    simp [UpdateIgnore, Prog.call, Prog.run_invoke, hquery]


/-- C14 at concrete inputs: the stored procedure returns three rows, two of
them for user 7, to a user who ignored user 99 before; and the stored
procedure fails. -/
theorem UpdateIgnore_replaces_ignore_list_witness :
    (∃ updated,
      (UpdateIgnore ignoringUser 7 1 .connection).run
          (sampleScript.envIgnoring (.ok [⟨7, "a"⟩, ⟨8, "b"⟩, ⟨7, "c"⟩])) 0
        = ⟨.ok updated,
           [.query (Conn.connection.Raw "call update_user_ignore(?, ?, ?)"
              [.uint 5540, .uint 7, .int 1]) .Scan .ignoredUsers,
            .userCachePut updated], 2⟩ ∧
      GoMap.get updated.IgnoredUsers 7 = some ⟨7, "c"⟩ ∧
      GoMap.get updated.IgnoredUsers 8 = some ⟨8, "b"⟩ ∧
      GoMap.get updated.IgnoredUsers 99 = none) ∧
    (UpdateIgnore ignoringUser 7 1 .connection).run
        (sampleScript.envIgnoring (.error (.other "deadlock"))) 0
      = ⟨.error (.withWrapper (.gorm (.other "deadlock")) .ErrInternalError),
         [.query (Conn.connection.Raw "call update_user_ignore(?, ?, ?)"
            [.uint 5540, .uint 7, .int 1]) .Scan .ignoredUsers], 1⟩ :=
  ⟨match (UpdateIgnore_replaces_ignore_list
      (sampleScript.envIgnoring (.ok [⟨7, "a"⟩, ⟨8, "b"⟩, ⟨7, "c"⟩])) 0 ignoringUser 7 1
      .connection).1 1 2 [⟨7, "a"⟩, ⟨8, "b"⟩, ⟨7, "c"⟩] rfl rfl with
    | ⟨updated, hrun, _, _, hget, _, _⟩ =>
      ⟨updated, hrun, (hget 7).trans rfl, (hget 8).trans rfl, (hget 99).trans rfl⟩,
   (UpdateIgnore_replaces_ignore_list (sampleScript.envIgnoring (.error (.other "deadlock"))) 0
      ignoringUser 7 1 .connection).2 1 (.other "deadlock") rfl⟩


/-! ## UpdateFolderSubscriptions -/

/-- In every run of `UpdateFolderSubscriptions`, failing ones included, the
`update_user_folder_subscription` calls issued are the calls for an initial
part of the entries of the map, in the order Go visits them: a call that
fails ends the loop, and no call is issued twice or with another state. -/
theorem UpdateFolderSubscriptions_calls_prefix {σ : Type} (env : Env σ) (s s1 : σ)
    (range : GoMap Bool → List (Nat × Bool)) (subsList : List Nat) (user : User) (db : Conn)
    (entries : List Folder)
    (hentries : env .folderCacheEntries s = (.ok entries, s1)) :
    ((UpdateFolderSubscriptions range subsList user db).run env s).trace.filterMap
        (Op.asFolderSubscriptionUpdate user.Id)
      <+: (range (UpdateFolderSubscriptions.subscriptions entries subsList)).map
        fun entry => (entry.1, if entry.2 then (1 : Int) else 0) := by
  unfold UpdateFolderSubscriptions
  rw [Prog.run_call, hentries]
  simp only [List.filterMap_cons, Op.asFolderSubscriptionUpdate]
  rw [Prog.filterMap_bind_never]
  · rcases Transaction_filterMap (Op.asFolderSubscriptionUpdate user.Id) env db ()
      (fun _ => Prog.bind (UpdateFolderSubscriptions.loop user db
        (range (UpdateFolderSubscriptions.subscriptions entries subsList)))
        fun err => Prog.ret ((), err)) s1 rfl rfl rfl with h | h
    · rw [h]
      exact List.nil_prefix
    · rw [h, Prog.filterMap_bind_never]
      · exact UpdateFolderSubscriptions.loop_calls_prefix env user db _ _
      · intro err
        trivial
  · intro r
    rcases r with ⟨_, _ | err⟩
    · exact Prog.Never.call rfl fun result => by cases result <;> trivial
    · trivial

/-- C13 as stated fails: the cached folders are 1 and 2, the user subscribes
to 7, which is not a known folder, Go visits the map from 7, and the stored
procedure refuses folder 7.  The call for 7 is the only one issued: the loop
ends there, the function panics, and the cached folders 1 and 2, absent from
`subsList`, are never submitted. -/
theorem UpdateFolderSubscriptions_refused_folder_ends_loop :
    ((UpdateFolderSubscriptions List.reverse [7] sampleUser .connection).run
        TxWorld.env ⟨[], [], 7⟩).trace
      = [.folderCacheEntries, .txBegin .connection,
         .exec .connection "call update_user_folder_subscription(?, ?, ?)"
           [.uint 5540, .uint 7, .int 1],
         .txRollback] ∧
    ((UpdateFolderSubscriptions List.reverse [7] sampleUser .connection).run
        TxWorld.env ⟨[], [], 7⟩).trace.filterMap (Op.asFolderSubscriptionUpdate 5540)
      = [(7, 1)] ∧
    ((UpdateFolderSubscriptions List.reverse [7] sampleUser .connection).run
        TxWorld.env ⟨[], [], 7⟩).outcome
      = .error (.withWrapper (.gorm (.other "unknown folder")) .ErrInternalError) ∧
    (TxWorld.env .folderCacheEntries ⟨[], [], 7⟩).1 = .ok [⟨1⟩, ⟨2⟩] ∧
    (∀ m : GoMap Bool, (List.reverse m).Perm m) := by
  refine ⟨rfl, rfl, rfl, rfl, fun m => List.reverse_perm m⟩

/-- C13, amended: `UpdateFolderSubscriptions` does not itself check that
subscribed folders exist.  It sets out the list `calls` of
`update_user_folder_subscription` calls: exactly one for each distinct id in
the union of the folder-cache ids and `subsList`, with state 1 if the id
occurs in `subsList` and state 0 otherwise, so an id of `subsList` that is
not a known folder is in the list with state 1 and every cached folder absent
from `subsList` is in it with state 0; the order is the order in which Go
visits the map.  In every run, whatever the database answers, the calls it
issues are an initial part of `calls`, because the loop ends at a call that
fails.  When the database calls succeed it issues all of them: its operations
are then the read of the folder cache, the begin, the calls of `calls`, the
commit and the final `get_folder_subscriptions`, and nothing else. -/
theorem UpdateFolderSubscriptions_calls_planned {σ : Type} (env : Env σ) (s s1 : σ)
    (range : GoMap Bool → List (Nat × Bool)) (subsList : List Nat) (user : User) (db : Conn)
    (entries : List Folder)
    (hrange : ∀ m, (range m).Perm m)
    (hentries : env .folderCacheEntries s = (.ok entries, s1)) :
    ∃ calls : List (Nat × Int),
      (calls.map Prod.fst).Nodup ∧
      (∀ folderId, folderId ∈ calls.map Prod.fst ↔
        folderId ∈ entries.map Folder.Id ∨ folderId ∈ subsList) ∧
      (∀ folderId state, (folderId, state) ∈ calls →
        state = if folderId ∈ subsList then 1 else 0) ∧
      (∀ folderId ∈ subsList, (folderId, (1 : Int)) ∈ calls) ∧
      (∀ folder ∈ entries, folder.Id ∉ subsList → (folder.Id, (0 : Int)) ∈ calls) ∧
      ((UpdateFolderSubscriptions range subsList user db).run env s).trace.filterMap
          (Op.asFolderSubscriptionUpdate user.Id) <+: calls ∧
      (env.dbCallsSucceed →
        ((UpdateFolderSubscriptions range subsList user db).run env s).trace
          = .folderCacheEntries :: .txBegin db ::
            (calls.map (fun call => Op.exec db "call update_user_folder_subscription(?, ?, ?)"
                [.uint user.Id, .uint call.1, .int call.2])
              ++ [.txCommit,
                  .query (db.Raw "call get_folder_subscriptions(?)" [.uint user.Id])
                    .Scan .folderSubscriptions])) := by
  have hnodup := UpdateFolderSubscriptions.subscriptions_nodup entries subsList
  have hget := UpdateFolderSubscriptions.subscriptions_get entries subsList
  have hperm := hrange (UpdateFolderSubscriptions.subscriptions entries subsList)
  have hmem : ∀ k v, (k, v) ∈ range (UpdateFolderSubscriptions.subscriptions entries subsList)
      ↔ GoMap.get (UpdateFolderSubscriptions.subscriptions entries subsList) k = some v :=
    fun k v => (hperm.mem_iff).trans (GoMap.mem_iff_get _ hnodup k v)
  have hkeys : ((range (UpdateFolderSubscriptions.subscriptions entries subsList)).map
      (fun entry => (entry.1, if entry.2 then (1 : Int) else 0))).map Prod.fst
      = (range (UpdateFolderSubscriptions.subscriptions entries subsList)).map Prod.fst := by
    rw [List.map_map]
    rfl
  refine ⟨(range (UpdateFolderSubscriptions.subscriptions entries subsList)).map
    (fun entry => (entry.1, if entry.2 then 1 else 0)), ?_, ?_, ?_, ?_, ?_, ?_, ?_⟩
  · rw [hkeys]
    exact (hperm.map Prod.fst).nodup_iff.2 hnodup
  · intro folderId
    rw [hkeys]
    constructor
    · intro h
      obtain ⟨⟨k, v⟩, hin, hk⟩ := List.mem_map.1 h
      simp only at hk
      subst hk
      have h := (hmem k v).1 hin
      rw [hget] at h
      by_cases h1 : k ∈ subsList
      · exact Or.inr h1
      · by_cases h2 : k ∈ entries.map Folder.Id
        · exact Or.inl h2
        · simp [h1, h2] at h
    · intro h
      by_cases h1 : folderId ∈ subsList
      · exact List.mem_map.2 ⟨(folderId, true), (hmem _ _).2 (by rw [hget]; simp [h1]), rfl⟩
      · rcases h with h | h
        · exact List.mem_map.2
            ⟨(folderId, false), (hmem _ _).2 (by rw [hget]; simp [h1, h]), rfl⟩
        · exact absurd h h1
  · intro folderId state hin
    simp only [List.mem_map, Prod.mk.injEq] at hin
    obtain ⟨⟨k, v⟩, hkv, hk, hstate⟩ := hin
    simp only at hk hstate
    subst hk
    have h := (hmem k v).1 hkv
    rw [hget] at h
    by_cases h1 : k ∈ subsList
    · simp [h1] at h
      simp [h1, ← hstate, ← h]
    · by_cases h2 : k ∈ entries.map Folder.Id
      · simp [h1, h2] at h
        simp [h1, ← hstate, ← h]
      · simp [h1, h2] at h
  · intro folderId hin
    simp only [List.mem_map, Prod.mk.injEq]
    exact ⟨(folderId, true), (hmem _ _).2 (by rw [hget]; simp [hin]), rfl, rfl⟩
  · intro folder hin hnot
    simp only [List.mem_map, Prod.mk.injEq]
    refine ⟨(folder.Id, false), (hmem _ _).2 ?_, rfl, rfl⟩
    rw [hget]
    have h2 : folder.Id ∈ entries.map Folder.Id := List.mem_map.2 ⟨folder, hin, rfl⟩
    simp [hnot, h2]
  · exact UpdateFolderSubscriptions_calls_prefix env s s1 range subsList user db entries
      hentries
  · intro hdb
    obtain ⟨hquery, hexec, _, _, _, hbegin, hcommit⟩ := hdb
    have hloop := UpdateFolderSubscriptions.loop_run_ok env user db hexec
      (range (UpdateFolderSubscriptions.subscriptions entries subsList)) (env (.txBegin db) s1).2
    have hbody : (Prog.run env
        (Prog.bind (UpdateFolderSubscriptions.loop user db
          (range (UpdateFolderSubscriptions.subscriptions entries subsList)))
          fun err => Prog.ret ((), err)) (env (.txBegin db) s1).2).outcome
          = .ok ((), none) := by
      rw [Prog.run_bind, hloop.1]
      rfl
    have htx := Transaction_run_ok env db () (fun _ =>
      Prog.bind (UpdateFolderSubscriptions.loop user db
          (range (UpdateFolderSubscriptions.subscriptions entries subsList)))
          fun err => Prog.ret ((), err)) s1 () (hbegin db s1) hbody hcommit
    have hbodytrace : (Prog.run env
        (Prog.bind (UpdateFolderSubscriptions.loop user db
          (range (UpdateFolderSubscriptions.subscriptions entries subsList)))
          fun err => Prog.ret ((), err)) (env (.txBegin db) s1).2).trace
          = (range (UpdateFolderSubscriptions.subscriptions entries subsList)).map
              fun entry => Op.exec db "call update_user_folder_subscription(?, ?, ?)"
                [.uint user.Id, .uint entry.1, .int (if entry.2 then 1 else 0)] := by
      rw [Prog.run_bind, hloop.1]
      simp [hloop.2]
    have hfinal : ∀ s', (Prog.run env (GetFolderSubscriptions user db) s').trace
        = [.query (db.Raw "call get_folder_subscriptions(?)" [.uint user.Id])
            .Scan .folderSubscriptions] := by
      intro s'
      unfold GetFolderSubscriptions
      rw [Prog.run_call]
      obtain ⟨v, hv⟩ := hquery (db.Raw "call get_folder_subscriptions(?)" [.uint user.Id])
        .Scan .folderSubscriptions s'
      rw [hv]
      rfl
    unfold UpdateFolderSubscriptions
    rw [Prog.run_call, hentries]
    simp only [Prog.run_bind, htx.1, htx.2, hbodytrace, hfinal, List.map_map]
    simp [hloop.1, hloop.2, Function.comp]

/-- C13, amended, at a concrete input: the cached folders are 1 and 2, the
user subscribes to folder 2 and to 7, which is not a known folder, and every
database call succeeds. -/
theorem UpdateFolderSubscriptions_calls_planned_witness :
    ∃ calls : List (Nat × Int),
      (7, (1 : Int)) ∈ calls ∧ (2, (1 : Int)) ∈ calls ∧ (1, (0 : Int)) ∈ calls ∧
      ((UpdateFolderSubscriptions (fun m => m) [2, 7] sampleUser .connection).run
          sampleScript.env 0).trace.filterMap (Op.asFolderSubscriptionUpdate 5540)
        <+: calls ∧
      ((UpdateFolderSubscriptions (fun m => m) [2, 7] sampleUser .connection).run
          sampleScript.env 0).trace
        = .folderCacheEntries :: .txBegin .connection ::
          (calls.map (fun call => Op.exec .connection
              "call update_user_folder_subscription(?, ?, ?)"
              [.uint 5540, .uint call.1, .int call.2])
            ++ [.txCommit,
                .query (Conn.connection.Raw "call get_folder_subscriptions(?)" [.uint 5540])
                  .Scan .folderSubscriptions]) :=
  match UpdateFolderSubscriptions_calls_planned sampleScript.env 0 1 (fun m => m) [2, 7]
      sampleUser .connection [⟨1⟩, ⟨2⟩] (fun m => List.Perm.refl m) rfl with
  | ⟨calls, _, _, _, hsubscribed, hunsubscribed, hprefix, htrace⟩ =>
    ⟨calls, hsubscribed 7 (by decide), hsubscribed 2 (by decide),
      hunsubscribed ⟨1⟩ (by decide) (by decide), hprefix,
      htrace sampleScript_dbCallsSucceed⟩

/-- The loop of `UpdateFolderSubscriptions` on the connection handle performs
nothing on the transaction handle. -/
theorem UpdateFolderSubscriptions.loop_never_onTransaction (user : User)
    (l : List (Nat × Bool)) :
    Prog.Never Op.onTransaction (UpdateFolderSubscriptions.loop user .connection l) := by
  induction l with
  | nil => trivial
  | cons entry rest ih =>
    rcases entry with ⟨folderId, subscribed⟩
    refine Prog.Never.call rfl fun resultError => ?_
    cases resultError with
    | some e => trivial
    | none => exact ih

/-- No run of `UpdateFolderSubscriptions` on the connection `db` performs a
database operation on the transaction handle: every call it makes between
begin and commit goes to the connection itself. -/
theorem UpdateFolderSubscriptions_nothing_on_transaction {σ : Type} (env : Env σ) (s : σ)
    (range : GoMap Bool → List (Nat × Bool)) (subsList : List Nat) (user : User) :
    ((UpdateFolderSubscriptions range subsList user .connection).run env s).trace.any
      Op.onTransaction = false := by
  apply Prog.Never.run_trace
  refine Prog.Never.call rfl fun entries => ?_
  refine Prog.Never.bind (Transaction_never _ _ _ ?_ rfl rfl rfl) fun r => ?_
  · exact Prog.Never.bind (UpdateFolderSubscriptions.loop_never_onTransaction user _)
      fun _ => trivial
  · rcases r with ⟨_, _ | err⟩
    · exact Prog.Never.call rfl fun result => by cases result <;> trivial
    · trivial

/-- C16 fails on the code: the cached folders are 1 and 2, the user
subscribes to none, and the stored procedure refuses folder 2.  The update
of folder 1 is issued with `db.Exec` on the connection, not on the
transaction handle; the update of folder 2 fails, the transaction is rolled
back and the function panics with the internal error, and the update of
folder 1 is still applied.  `DeleteFolderSubscriptions`, which issues its
calls with `tx.Exec`, leaves nothing applied in the same situation. -/
theorem UpdateFolderSubscriptions_failure_keeps_earlier_update :
    ((UpdateFolderSubscriptions (fun m => m) [] sampleUser .connection).run
        TxWorld.env ⟨[], [], 2⟩).outcome
      = .error (.withWrapper (.gorm (.other "unknown folder")) .ErrInternalError) ∧
    ((UpdateFolderSubscriptions (fun m => m) [] sampleUser .connection).run
        TxWorld.env ⟨[], [], 2⟩).trace
      = [.folderCacheEntries, .txBegin .connection,
         .exec .connection "call update_user_folder_subscription(?, ?, ?)"
           [.uint 5540, .uint 1, .int 0],
         .exec .connection "call update_user_folder_subscription(?, ?, ?)"
           [.uint 5540, .uint 2, .int 0],
         .txRollback] ∧
    ((UpdateFolderSubscriptions (fun m => m) [] sampleUser .connection).run
        TxWorld.env ⟨[], [], 2⟩).state
      = ⟨[("call update_user_folder_subscription(?, ?, ?)", [.uint 5540, .uint 1, .int 0])],
         [], 2⟩ ∧
    ((DeleteFolderSubscriptions [1, 2] sampleUser .connection).run
        TxWorld.env ⟨[], [], 2⟩).outcome
      = .error (.withWrapper (.gorm (.other "unknown folder")) .ErrInternalError) ∧
    ((DeleteFolderSubscriptions [1, 2] sampleUser .connection).run
        TxWorld.env ⟨[], [], 2⟩).state = ⟨[], [], 2⟩ := by
  refine ⟨rfl, rfl, rfl, rfl, rfl⟩


/-! ## UpdatePassword and authentication -/

/-- C15: `UpdatePassword` never changes a password without authentication.
In every execution in which `update_user_password` is called, whatever the
database and the caches answer, either a non-nil user was supplied and
`find_user(user.Username, sha256-hex(OldPassword))`, run first in the
transaction, returned a record with a non-zero id, or `user` was nil, the
reset key was not empty and `ValidatePasswordResetKey` returned a request
with a nil error for it.  With `user` nil and an empty reset key no execution
calls `update_user_password` or flushes the cache, and once the new password
has passed the length check and the transaction is open the function panics
with `ErrBadRequest` after the rollback.  With a wrong old password
(`find_user` finds no record, or returns a record with id 0) the function
panics with `ErrUnauthorised`, and the begin, the lookup and the rollback are
its only operations. -/
theorem UpdatePassword_requires_authentication {σ : Type} (env : Env σ) (s : σ)
    (user : Option User) (updateData : UserOptionsUpdateData) (db : Conn) :
    (((UpdatePassword user updateData db).run env s).trace.any Op.isUpdateUserPassword = true →
      (∃ u found, user = some u ∧
        (env (.query (Conn.transaction.Raw "call find_user(?, ?)"
          [.str u.Username, .sha256Hex updateData.OldPassword]) .Take .user)
          (env (.txBegin db) s).2).1 = .ok (.ok found) ∧ found.Id ≠ 0) ∨
      (user = none ∧ 0 < len updateData.ResetKey ∧ ∃ request,
        ((ValidatePasswordResetKey updateData.ResetKey .transaction).run env
          (env (.txBegin db) s).2).outcome = .ok (some request, none))) ∧
    (user = none → len updateData.ResetKey = 0 →
      ((UpdatePassword user updateData db).run env s).trace.any Op.changesPassword = false ∧
      (8 ≤ len updateData.NewPassword → ∀ s1 s2,
        env (.txBegin db) s = (.ok none, s1) → env .txRollback s1 = (.ok (), s2) →
        (UpdatePassword user updateData db).run env s
          = ⟨.error (.value .ErrBadRequest), [.txBegin db, .txRollback], s2⟩)) ∧
    (∀ u, user = some u → 8 ≤ len updateData.NewPassword → ∀ s1 s2 s3 result,
      env (.txBegin db) s = (.ok none, s1) →
      env (.query (Conn.transaction.Raw "call find_user(?, ?)"
        [.str u.Username, .sha256Hex updateData.OldPassword]) .Take .user) s1
          = (.ok result, s2) →
      (result = .error .ErrRecordNotFound ∨ ∃ found, result = .ok found ∧ found.Id = 0) →
      env .txRollback s2 = (.ok (), s3) →
      (UpdatePassword user updateData db).run env s
        = ⟨.error (.value .ErrUnauthorised),
           [.txBegin db,
            .query (Conn.transaction.Raw "call find_user(?, ?)"
              [.str u.Username, .sha256Hex updateData.OldPassword]) .Take .user,
            .txRollback], s3⟩) := by
  refine ⟨?_, ?_, ?_⟩
  · intro hany
    unfold UpdatePassword at hany
    by_cases hlen : len updateData.NewPassword < 8
    · simp [hlen] at hany
    · simp only [hlen, if_false] at hany
      have htx : (Prog.run env (Transaction db (0 : Nat)
          (UpdatePassword.closure user updateData)) s).trace.any Op.isUpdateUserPassword
            = true := by
        rcases Prog.any_bind env _ _ _ hany with h | ⟨r, _, h⟩
        · exact h
        · rcases r with ⟨userId, _ | err⟩
          · simp only at h
            obtain ⟨_, _, h2⟩ := Prog.any_call env (.userCacheGet userId) _ _ rfl h
            simp at h2
          · simp at h
      obtain ⟨_, hclosure⟩ := Transaction_any env db 0 _ s rfl rfl rfl htx
      unfold UpdatePassword.closure at hclosure
      cases user with
      | some u =>
        left
        simp only at hclosure
        obtain ⟨result, hfind, h⟩ := Prog.any_call env _ _ _
          (by simp [Op.isUpdateUserPassword, Conn.Raw]) hclosure
        cases result with
        | error e =>
          simp only at h
          split at h <;> simp at h
        | ok found =>
          simp only at h
          by_cases hid : found.Id = 0
          · simp [hid] at h
          · exact ⟨u, found, rfl, hfind, hid⟩
      | none =>
        right
        simp only at hclosure
        by_cases hkey : len updateData.ResetKey > 0
        · simp only [hkey, if_true] at hclosure
          refine ⟨rfl, hkey, ?_⟩
          rcases Prog.any_bind env _ _ _ hclosure with h | ⟨validated, hvalid, h⟩
          · have hnever : Prog.Never Op.isUpdateUserPassword
                (ValidatePasswordResetKey updateData.ResetKey .transaction) := by
              refine Prog.Never.call rfl fun parsed => ?_
              cases parsed with
              | false => trivial
              | true =>
                refine Prog.Never.call (by simp [Op.isUpdateUserPassword, Conn.Raw])
                  fun result => ?_
                cases result with
                | error e => (try simp only []); split <;> trivial
                | ok request =>
                  refine Prog.Never.call rfl fun now => ?_
                  split <;> trivial
            rw [Prog.Never.run_trace hnever] at h
            exact absurd h (by decide)
          · rcases validated with ⟨_ | request, _ | err⟩
            · simp at h
            · simp at h
            · exact ⟨request, hvalid⟩
            · simp at h
        · simp [hkey] at hclosure
  · intro huser hkey
    subst huser
    refine ⟨?_, ?_⟩
    · apply Prog.Never.run_trace
      unfold UpdatePassword
      split
      · trivial
      · refine Prog.Never.bind (Transaction_never db 0 _ ?_ rfl rfl rfl) fun r => ?_
        · simp [UpdatePassword.closure, hkey]
          trivial
        · rcases r with ⟨userId, _ | err⟩
          · exact Prog.Never.call rfl fun _ => trivial
          · trivial
    · intro hlen s1 s2 hbegin hrollback
      have hlen' : ¬ len updateData.NewPassword < 8 := by omega
      simp [UpdatePassword, hlen', Transaction, UpdatePassword.closure, hkey, Prog.call,
        Prog.bind, Prog.onPanic, Prog.run_invoke, hbegin, hrollback]
  · intro u huser hlen s1 s2 s3 result hbegin hfind hwrong hrollback
    subst huser
    have hlen' : ¬ len updateData.NewPassword < 8 := by omega
    rcases hwrong with hnot | ⟨found, hfound, hid⟩
    · subst hnot
      simp [UpdatePassword, hlen', Transaction, UpdatePassword.closure, Prog.call,
        Prog.bind, Prog.onPanic, Prog.run_invoke, hbegin, hfind, hrollback]
    · subst hfound
      simp [UpdatePassword, hlen', Transaction, UpdatePassword.closure, Prog.call,
        Prog.bind, Prog.onPanic, Prog.run_invoke, hbegin, hfind, hrollback, hid]


/-- C15 at concrete inputs: a password reset with a key that validates, a
call with neither user nor reset key, and a logged-in user with a wrong old
password. -/
theorem UpdatePassword_requires_authentication_witness :
    ((∃ u found, (none : Option User) = some u ∧
        (sampleScript.env (.query (Conn.transaction.Raw "call find_user(?, ?)"
          [.str u.Username, .sha256Hex ""]) .Take .user)
          (sampleScript.env (.txBegin .connection) 0).2).1 = .ok (.ok found) ∧ found.Id ≠ 0) ∨
      ((none : Option User) = none ∧ 0 < len "6ba7b810-9dad-11d1-80b4-00c04fd430c8" ∧
        ∃ request,
          ((ValidatePasswordResetKey "6ba7b810-9dad-11d1-80b4-00c04fd430c8" .transaction).run
            sampleScript.env (sampleScript.env (.txBegin .connection) 0).2).outcome
              = .ok (some request, none))) ∧
    (UpdatePassword none ⟨"", "new-password", ""⟩ .connection).run sampleScript.env 0
      = ⟨.error (.value .ErrBadRequest), [.txBegin .connection, .txRollback], 2⟩ ∧
    (UpdatePassword (some sampleUser) ⟨"wrong-password", "new-password", ""⟩ .connection).run
        ({ sampleScript with userRow := .error .ErrRecordNotFound }).env 0
      = ⟨.error (.value .ErrUnauthorised),
         [.txBegin .connection,
          .query (Conn.transaction.Raw "call find_user(?, ?)"
            [.str "johnny", .sha256Hex "wrong-password"]) .Take .user,
          .txRollback], 3⟩ :=
  ⟨(UpdatePassword_requires_authentication sampleScript.env 0 none
      ⟨"", "new-password", "6ba7b810-9dad-11d1-80b4-00c04fd430c8"⟩ .connection).1 rfl,
   ((UpdatePassword_requires_authentication sampleScript.env 0 none
      ⟨"", "new-password", ""⟩ .connection).2.1 rfl rfl).2 (by decide) 1 2 rfl rfl,
   (UpdatePassword_requires_authentication
      ({ sampleScript with userRow := .error .ErrRecordNotFound }).env 0 (some sampleUser)
      ⟨"wrong-password", "new-password", ""⟩ .connection).2.2 sampleUser rfl (by decide) 1 2 3
      (Except.error DbError.ErrRecordNotFound : Except DbError User) rfl rfl (Or.inl rfl) rfl⟩


end JustTheTalk
